import Mathlib

set_option maxHeartbeats 1000000

/- Shallow embedding of the RainyElements repository.

   Sources:
   - the RainEffect particle renderer (dropCount switch and the random
     raindrop batch), and
   - the RainyPage page controller (src/client/src/pages/RainyPage.tsx,
     second/current version of the component): AUDIO_SOURCES keyed by
     surface and intensity, the consolidated audio effect, the
     window-open volume effect, the thunder effect keyed on
     (weatherIntensity, isMuted, windowOpen), handleIntensityChange and
     triggerManualThunder.

   React useState/useEffect semantics are modelled explicitly: every
   effect stores a snapshot of its dependency array and re-runs (previous
   cleanup first) exactly when the snapshot differs from the current
   values; user events update state and are followed by effect passes run
   to a fixpoint (two passes suffice here, because only the volume effect
   writes state that another effect depends on). -/

inductive WeatherType where
  | light
  | medium
  | heavy
  deriving DecidableEq, Repr

inductive TimeOfDay where
  | day
  | night
  | dusk
  deriving DecidableEq, Repr

inductive Surface where
  | glass
  | metal
  | tiles
  | car
  | leaves
  | cement
  deriving DecidableEq, Repr

/- AUDIO_SOURCES from RainyPage.tsx: Record<Surface, Record<WeatherType, string>>. -/
def AUDIO_SOURCES (s : Surface) (w : WeatherType) : String :=
  match s, w with
  | .glass, .light => "https://www.orangefreesounds.com/wp-content/uploads/2020/03/Rain-on-window-sound.mp3"
  | .glass, .medium => "https://www.orangefreesounds.com/wp-content/uploads/2020/03/Rain-on-window-sound.mp3"
  | .glass, .heavy => "https://www.orangefreesounds.com/wp-content/uploads/2020/03/Rain-on-window-sound.mp3"
  | .metal, .light => "https://orangefreesounds.com/wp-content/uploads/2023/05/Rain-on-metal-roof-sound.mp3"
  | .metal, .medium => "https://orangefreesounds.com/wp-content/uploads/2023/05/Rain-on-metal-roof-sound.mp3"
  | .metal, .heavy => "https://orangefreesounds.com/wp-content/uploads/2023/05/Rain-on-metal-roof-sound.mp3"
  | .tiles, .light => "https://www.orangefreesounds.com/wp-content/uploads/2020/06/Rain-on-roof-sounds.mp3"
  | .tiles, .medium => "https://www.orangefreesounds.com/wp-content/uploads/2020/06/Rain-on-roof-sounds.mp3"
  | .tiles, .heavy => "https://www.orangefreesounds.com/wp-content/uploads/2020/06/Rain-on-roof-sounds.mp3"
  | .car, .light => "https://www.orangefreesounds.com/wp-content/uploads/2021/07/Raindrops-on-the-car-window-sound-effect.mp3"
  | .car, .medium => "https://www.orangefreesounds.com/wp-content/uploads/2021/07/Raindrops-on-the-car-window-sound-effect.mp3"
  | .car, .heavy => "https://www.orangefreesounds.com/wp-content/uploads/2021/07/Raindrops-on-the-car-window-sound-effect.mp3"
  | .leaves, .light => "https://www.orangefreesounds.com/wp-content/uploads/2016/04/Rainforest-sounds.mp3"
  | .leaves, .medium => "https://www.orangefreesounds.com/wp-content/uploads/2016/04/Rainforest-sounds.mp3"
  | .leaves, .heavy => "https://www.orangefreesounds.com/wp-content/uploads/2016/04/Rainforest-sounds.mp3"
  | .cement, .light => "https://www.orangefreesounds.com/wp-content/uploads/2019/06/Rain-on-concrete.mp3"
  | .cement, .medium => "https://www.orangefreesounds.com/wp-content/uploads/2019/06/Rain-on-concrete.mp3"
  | .cement, .heavy => "https://www.orangefreesounds.com/wp-content/uploads/2019/06/Rain-on-concrete.mp3"

def THUNDER_SOUND : String :=
  "https://orangefreesounds.com/wp-content/uploads/2023/01/Thunder-clap-sound-effect-no-rain.mp3"

/- RainEffect.tsx dropCount: the switch dispatches on the runtime string
   value of the intensity prop; the default branch returns 100. -/
def dropCount (intensity : String) : Nat :=
  if intensity = "light" then 50
  else if intensity = "medium" then 150
  else if intensity = "heavy" then 400
  else 100

/- RainEffect.tsx raindrop record.  Numeric fields are the numbers put
   into the style strings: left in percent, durations and delays in
   seconds, opacity raw. -/
structure Raindrop where
  id : Nat
  left : ℚ
  animationDuration : ℚ
  animationDelay : ℚ
  opacity : ℚ
  deriving DecidableEq, Repr

/- One element of the drops array, with the four Math.random() draws made
   explicit. -/
def mkRaindrop (i : Nat) (r1 r2 r3 r4 : ℚ) : Raindrop :=
  { id := i
    left := r1 * 100
    animationDuration := 0.5 + r2 * 0.5
    animationDelay := r3 * 2
    opacity := r4 * 0.5 + 0.1 }

/- The drops useMemo: Array.from of length dropCount, mapped over the
   index; rnd enumerates the successive Math.random() draws. -/
def rainDrops (intensity : String) (rnd : Nat → ℚ) : List Raindrop :=
  (List.range (dropCount intensity)).map
    (fun i => mkRaindrop i (rnd (4 * i)) (rnd (4 * i + 1)) (rnd (4 * i + 2)) (rnd (4 * i + 3)))

/- RainyPage.tsx randomInterval: delay = 5000 + Math.random() * 10000. -/
def thunderDelay (r : ℚ) : ℚ := 5000 + r * 10000

/- Fire times of the auto thunder loop: each firing reschedules the next
   timeout immediately, so flash n+1 happens thunderDelay (rnd (n+1))
   milliseconds after flash n. -/
def flashTime (rnd : Nat → ℚ) : Nat → ℚ
  | 0 => thunderDelay (rnd 0)
  | n + 1 => flashTime rnd n + thunderDelay (rnd (n + 1))

/- The useState values owned by RainyPage.  Volumes are modelled in
   tenths of the DOM volume unit (source 0.5 is stored as 5, 0.8 as 8,
   0.3 as 3, 1.0 as 10), which keeps every value exact and computable. -/
structure PageState where
  weatherIntensity : WeatherType
  timeOfDay : TimeOfDay
  showControls : Bool
  isMuted : Bool
  windowOpen : Bool
  volume : Nat
  isThundering : Bool
  enableManualThunder : Bool
  surface : Surface
  deriving DecidableEq, Repr

/- The ambient HTMLAudioElement held in audioRef; volume in tenths. -/
structure AudioState where
  src : Option String
  volume : Nat
  paused : Bool
  loop : Bool
  deriving DecidableEq, Repr

/- A pending setTimeout handle of the thunder loop: id is the handle
   identity (fresh per setTimeout call), delay the scheduled delay in
   milliseconds. -/
structure TimerState where
  id : Nat
  delay : ℚ
  deriving DecidableEq, Repr

/- Result of one run of the consolidated audio effect body: the new
   element state plus whether the src was reassigned and whether play()
   was invoked. -/
structure AudioEffectResult where
  audio : AudioState
  srcSwapped : Bool
  playAttempted : Bool
  deriving DecidableEq, Repr

/- Body of the consolidated audio useEffect (RainyPage.tsx lines
   351-383): set loop, compute targetSrc, swap src when it differs, set
   volume, then pause when muted or play when paused or the src just
   changed. -/
def audioEffectBody (audio : AudioState) (p : PageState) : AudioEffectResult :=
  let a0 : AudioState := { audio with loop := true }
  let targetSrc := AUDIO_SOURCES p.surface p.weatherIntensity
  let needsSrcChange : Bool := decide (a0.src ≠ some targetSrc)
  let a1 : AudioState := if needsSrcChange then { a0 with src := some targetSrc } else a0
  let a2 : AudioState := { a1 with volume := p.volume }
  if p.isMuted then
    { audio := { a2 with paused := true }, srcSwapped := needsSrcChange, playAttempted := false }
  else if a2.paused || needsSrcChange then
    { audio := { a2 with paused := false }, srcSwapped := needsSrcChange, playAttempted := true }
  else
    { audio := a2, srcSwapped := needsSrcChange, playAttempted := false }

/- The direct audio manipulation inside handleIntensityChange (lines
   444-450): swap the src and call play() only when the target for the
   new intensity differs from the current src.  Second component: whether
   a swap (with play) happened. -/
def handleIntensityAudioSwap (audio : AudioState) (surf : Surface) (i : WeatherType) :
    AudioState × Bool :=
  let newSrc := AUDIO_SOURCES surf i
  if audio.src = some newSrc then (audio, false)
  else ({ audio with src := some newSrc, paused := false }, true)

/- Whole-system state: page state, the audio element, the pending thunder
   timeout, the stored dependency snapshots of the three effects, and
   observation logs (thunder sounds played with their volume, ids of
   timers that actually fired). -/
structure SysState where
  page : PageState
  audio : AudioState
  thunderTimer : Option TimerState
  nextTimerId : Nat
  flashClears : List Nat
  depsAudio : Option (WeatherType × Bool × Nat × Surface)
  depsVolume : Option Bool
  depsThunder : Option (WeatherType × Bool × Bool)
  playedThunder : List Nat
  firedIds : List Nat
  deriving DecidableEq, Repr

/- Dependency array of the consolidated audio effect:
   [weatherIntensity, isMuted, volume, surface]. -/
def audioDeps (s : SysState) : WeatherType × Bool × Nat × Surface :=
  (s.page.weatherIntensity, s.page.isMuted, s.page.volume, s.page.surface)

/- Dependency array of the thunder effect:
   [weatherIntensity, isMuted, windowOpen]. -/
def thunderDeps (s : SysState) : WeatherType × Bool × Bool :=
  (s.page.weatherIntensity, s.page.isMuted, s.page.windowOpen)

/- Body of the volume useEffect (lines 386-392): setVolume(0.8) when the
   window is open, setVolume(0.3) otherwise (stored in tenths: 8 / 3). -/
def volumeEffectBody (p : PageState) : PageState :=
  if p.windowOpen then { p with volume := 8 } else { p with volume := 3 }

/- One (re)run of the thunder effect (lines 395-426): the cleanup of the
   previous run clears the pending timeout; then, when the intensity is
   not heavy, setIsThundering(false) and return; otherwise schedule
   randomInterval() with a fresh handle. -/
def thunderEffectRun (s : SysState) (r : ℚ) : SysState :=
  if s.page.weatherIntensity = WeatherType.heavy then
    { s with
      thunderTimer := some { id := s.nextTimerId, delay := thunderDelay r }
      nextTimerId := s.nextTimerId + 1 }
  else
    { s with
      thunderTimer := none
      page := { s.page with isThundering := false } }

/- Run the audio effect if its dependency snapshot differs. -/
def runAudioEffect (s : SysState) : SysState :=
  if s.depsAudio = some (audioDeps s) then s
  else
    { s with
      audio := (audioEffectBody s.audio s.page).audio
      depsAudio := some (audioDeps s) }

/- Run the volume effect if its dependency snapshot differs. -/
def runVolumeEffect (s : SysState) : SysState :=
  if s.depsVolume = some s.page.windowOpen then s
  else { s with page := volumeEffectBody s.page, depsVolume := some s.page.windowOpen }

/- Run the thunder effect if its dependency snapshot differs. -/
def runThunderEffect (r : ℚ) (s : SysState) : SysState :=
  if s.depsThunder = some (thunderDeps s) then s
  else { thunderEffectRun s r with depsThunder := some (thunderDeps s) }

/- One commit's effect pass, in declaration order of the three
   useEffects. -/
def runEffectPass (r : ℚ) (s : SysState) : SysState :=
  runThunderEffect r (runVolumeEffect (runAudioEffect s))

/- Effects run to fixpoint: only the volume effect writes state another
   effect depends on, and it stabilises after one extra pass. -/
def runEffects (r : ℚ) (s : SysState) : SysState :=
  runEffectPass r (runEffectPass r s)

/- triggerThunder inside the thunder effect: flash on, play the thunder
   clip at volume 1.0 (window open) or 0.5 unless muted (in tenths: 10 or
   5), and schedule the 1000 ms setTimeout that clears the flash. -/
def triggerThunder (s : SysState) : SysState :=
  if s.page.isMuted then
    { s with
      page := { s.page with isThundering := true }
      flashClears := 1000 :: s.flashClears }
  else
    { s with
      page := { s.page with isThundering := true }
      playedThunder := (if s.page.windowOpen then (10 : Nat) else 5) :: s.playedThunder
      flashClears := 1000 :: s.flashClears }

/- triggerManualThunder (lines 453-464): same body as the auto
   triggerThunder, duplicated in the source. -/
def triggerManualThunder (s : SysState) : SysState :=
  if s.page.isMuted then
    { s with
      page := { s.page with isThundering := true }
      flashClears := 1000 :: s.flashClears }
  else
    { s with
      page := { s.page with isThundering := true }
      playedThunder := (if s.page.windowOpen then (10 : Nat) else 5) :: s.playedThunder
      flashClears := 1000 :: s.flashClears }

/- The pending thunder timeout fires: record the fired handle, run
   triggerThunder, and reschedule (timerRef.current = randomInterval()). -/
def fireThunderTimer (s : SysState) (r : ℚ) : SysState :=
  match s.thunderTimer with
  | none => s
  | some t =>
    let s1 := triggerThunder { s with firedIds := t.id :: s.firedIds }
    { s1 with
      thunderTimer := some { id := s1.nextTimerId, delay := thunderDelay r }
      nextTimerId := s1.nextTimerId + 1 }

/- One of the pending 1000 ms flash-clear timeouts fires:
   setIsThundering(false). -/
def runFlashClear (s : SysState) : SysState :=
  match s.flashClears with
  | [] => s
  | _ :: rest => { s with flashClears := rest, page := { s.page with isThundering := false } }

/- handleIntensityChange (lines 439-451): set the intensity, unmute, and
   force the audio swap immediately when the target differs. -/
def handleIntensityChange (s : SysState) (i : WeatherType) : SysState :=
  { s with
    page := { s.page with weatherIntensity := i, isMuted := false }
    audio := (handleIntensityAudioSwap s.audio s.page.surface i).1 }

/- The user-visible and timer events of the page. -/
inductive Event where
  | mount
  | intensityClick (i : WeatherType)
  | timeClick (t : TimeOfDay)
  | controlsToggle
  | soundSwitch (c : Bool)
  | windowSwitch (b : Bool)
  | surfaceSelect (surf : Surface)
  | manualThunderSwitch (b : Bool)
  | manualThunderClick
  | thunderFires
  | flashClearFires
  deriving DecidableEq, Repr

/- Event semantics: the handler's state updates followed by the effect
   passes of the resulting commit.  The Sound switch invokes
   setIsMuted(!c); r is the Math.random() draw consumed if a new thunder
   timeout is scheduled during the step. -/
def step (e : Event) (r : ℚ) (s : SysState) : SysState :=
  match e with
  | .mount => runEffects r s
  | .intensityClick i => runEffects r (handleIntensityChange s i)
  | .timeClick t => runEffects r { s with page := { s.page with timeOfDay := t } }
  | .controlsToggle => runEffects r { s with page := { s.page with showControls := !s.page.showControls } }
  | .soundSwitch c => runEffects r { s with page := { s.page with isMuted := !c } }
  | .windowSwitch b => runEffects r { s with page := { s.page with windowOpen := b } }
  | .surfaceSelect surf => runEffects r { s with page := { s.page with surface := surf } }
  | .manualThunderSwitch b => runEffects r { s with page := { s.page with enableManualThunder := b } }
  | .manualThunderClick => runEffects r (triggerManualThunder s)
  | .thunderFires => runEffects r (fireThunderTimer s r)
  | .flashClearFires => runEffects r (runFlashClear s)

/- Which events can actually occur in a given state: the Trigger Thunder
   button is only rendered while enableManualThunder is set, and a
   timeout only fires while it is pending. -/
def ValidEvent (s : SysState) : Event → Prop
  | .manualThunderClick => s.page.enableManualThunder = true
  | .thunderFires => s.thunderTimer ≠ none
  | .flashClearFires => s.flashClears ≠ []
  | _ => True

/- Initial useState values of RainyPage. -/
def initPage : PageState :=
  { weatherIntensity := .medium
    timeOfDay := .night
    showControls := true
    isMuted := false
    windowOpen := false
    volume := 5
    isThundering := false
    enableManualThunder := false
    surface := .glass }

/- The ambient audio element is rendered with no src attribute; a fresh
   HTMLAudioElement is not looping, is paused, and has volume 1.0 (in
   tenths: 10). -/
def initAudio : AudioState :=
  { src := none, volume := 10, paused := true, loop := false }

/- The state of the very first render, before the mount effects run. -/
def initState : SysState :=
  { page := initPage
    audio := initAudio
    thunderTimer := none
    nextTimerId := 0
    flashClears := []
    depsAudio := none
    depsVolume := none
    depsThunder := none
    playedThunder := []
    firedIds := [] }

/- Reachability: the initial render, closed under valid events with
   Math.random() draws in [0, 1). -/
inductive Reachable : SysState → Prop where
  | refl : Reachable initState
  | tail (s : SysState) (e : Event) (r : ℚ) (hr0 : 0 ≤ r) (hr1 : r < 1)
      (hv : ValidEvent s e) (h : Reachable s) : Reachable (step e r s)

/- Run a whole list of (event, draw) pairs. -/
def runTrace (tr : List (Event × ℚ)) (s : SysState) : SysState :=
  tr.foldl (fun st p => step p.1 p.2 st) s

/- All three effect dependency snapshots agree with the current state. -/
def DepsSynced (s : SysState) : Prop :=
  s.depsAudio = some (audioDeps s)
    ∧ s.depsVolume = some s.page.windowOpen
    ∧ s.depsThunder = some (thunderDeps s)

/- A pending thunder timeout only exists while the intensity is heavy,
   and carries a handle below the allocation counter. -/
def ThunderInv (s : SysState) : Prop :=
  ∀ t, s.thunderTimer = some t →
    s.page.weatherIntensity = WeatherType.heavy ∧ t.id < s.nextTimerId

/- Once the volume effect has observed the current windowOpen value, the
   volume is the derived one. -/
def VolInv (s : SysState) : Prop :=
  s.depsVolume = some s.page.windowOpen →
    s.page.volume = (if s.page.windowOpen then 8 else 3)

/- A cancelled timer handle g stays dead: every live handle and the
   allocation counter are strictly above it. -/
def IdGuard (g : Nat) (s : SysState) : Prop :=
  (∀ u, s.thunderTimer = some u → g < u.id) ∧ g < s.nextTimerId

/- Frame and synchronisation lemmas for the audio effect runner. -/

@[simp]
theorem runAudioEffect_page (s : SysState) : (runAudioEffect s).page = s.page := by
  unfold runAudioEffect; split <;> rfl

@[simp]
theorem runAudioEffect_thunderTimer (s : SysState) :
    (runAudioEffect s).thunderTimer = s.thunderTimer := by
  unfold runAudioEffect; split <;> rfl

@[simp]
theorem runAudioEffect_nextTimerId (s : SysState) :
    (runAudioEffect s).nextTimerId = s.nextTimerId := by
  unfold runAudioEffect; split <;> rfl

@[simp]
theorem runAudioEffect_depsVolume (s : SysState) :
    (runAudioEffect s).depsVolume = s.depsVolume := by
  unfold runAudioEffect; split <;> rfl

@[simp]
theorem runAudioEffect_depsThunder (s : SysState) :
    (runAudioEffect s).depsThunder = s.depsThunder := by
  unfold runAudioEffect; split <;> rfl

@[simp]
theorem runAudioEffect_flashClears (s : SysState) :
    (runAudioEffect s).flashClears = s.flashClears := by
  unfold runAudioEffect; split <;> rfl

@[simp]
theorem runAudioEffect_playedThunder (s : SysState) :
    (runAudioEffect s).playedThunder = s.playedThunder := by
  unfold runAudioEffect; split <;> rfl

@[simp]
theorem runAudioEffect_firedIds (s : SysState) :
    (runAudioEffect s).firedIds = s.firedIds := by
  unfold runAudioEffect; split <;> rfl

@[simp]
theorem runAudioEffect_depsAudio (s : SysState) :
    (runAudioEffect s).depsAudio = some (audioDeps s) := by
  unfold runAudioEffect; split
  · assumption
  · rfl

/- Frame and synchronisation lemmas for the volume effect runner. -/

@[simp]
theorem runVolumeEffect_weatherIntensity (s : SysState) :
    (runVolumeEffect s).page.weatherIntensity = s.page.weatherIntensity := by
  unfold runVolumeEffect volumeEffectBody
  split
  · rfl
  · split <;> rfl

@[simp]
theorem runVolumeEffect_isMuted (s : SysState) :
    (runVolumeEffect s).page.isMuted = s.page.isMuted := by
  unfold runVolumeEffect volumeEffectBody
  split
  · rfl
  · split <;> rfl

@[simp]
theorem runVolumeEffect_windowOpen (s : SysState) :
    (runVolumeEffect s).page.windowOpen = s.page.windowOpen := by
  unfold runVolumeEffect volumeEffectBody
  split
  · rfl
  · split <;> rfl

@[simp]
theorem runVolumeEffect_surface (s : SysState) :
    (runVolumeEffect s).page.surface = s.page.surface := by
  unfold runVolumeEffect volumeEffectBody
  split
  · rfl
  · split <;> rfl

@[simp]
theorem runVolumeEffect_isThundering (s : SysState) :
    (runVolumeEffect s).page.isThundering = s.page.isThundering := by
  unfold runVolumeEffect volumeEffectBody
  split
  · rfl
  · split <;> rfl

@[simp]
theorem runVolumeEffect_enableManualThunder (s : SysState) :
    (runVolumeEffect s).page.enableManualThunder = s.page.enableManualThunder := by
  unfold runVolumeEffect volumeEffectBody
  split
  · rfl
  · split <;> rfl

@[simp]
theorem runVolumeEffect_audio (s : SysState) : (runVolumeEffect s).audio = s.audio := by
  unfold runVolumeEffect; split <;> rfl

@[simp]
theorem runVolumeEffect_thunderTimer (s : SysState) :
    (runVolumeEffect s).thunderTimer = s.thunderTimer := by
  unfold runVolumeEffect; split <;> rfl

@[simp]
theorem runVolumeEffect_nextTimerId (s : SysState) :
    (runVolumeEffect s).nextTimerId = s.nextTimerId := by
  unfold runVolumeEffect; split <;> rfl

@[simp]
theorem runVolumeEffect_depsAudio (s : SysState) :
    (runVolumeEffect s).depsAudio = s.depsAudio := by
  unfold runVolumeEffect; split <;> rfl

@[simp]
theorem runVolumeEffect_depsThunder (s : SysState) :
    (runVolumeEffect s).depsThunder = s.depsThunder := by
  unfold runVolumeEffect; split <;> rfl

@[simp]
theorem runVolumeEffect_flashClears (s : SysState) :
    (runVolumeEffect s).flashClears = s.flashClears := by
  unfold runVolumeEffect; split <;> rfl

@[simp]
theorem runVolumeEffect_playedThunder (s : SysState) :
    (runVolumeEffect s).playedThunder = s.playedThunder := by
  unfold runVolumeEffect; split <;> rfl

@[simp]
theorem runVolumeEffect_firedIds (s : SysState) :
    (runVolumeEffect s).firedIds = s.firedIds := by
  unfold runVolumeEffect; split <;> rfl

@[simp]
theorem runVolumeEffect_depsVolume (s : SysState) :
    (runVolumeEffect s).depsVolume = some s.page.windowOpen := by
  unfold runVolumeEffect; split
  · assumption
  · rfl

theorem runVolumeEffect_of_sync (s : SysState) (h : s.depsVolume = some s.page.windowOpen) :
    runVolumeEffect s = s := by
  unfold runVolumeEffect; exact if_pos h

theorem runVolumeEffect_volume_run (s : SysState)
    (h : s.depsVolume ≠ some s.page.windowOpen) :
    (runVolumeEffect s).page.volume = (if s.page.windowOpen then (8 : Nat) else 3) := by
  unfold runVolumeEffect volumeEffectBody
  rw [if_neg h]
  split <;> simp_all

/- Frame and synchronisation lemmas for the thunder effect runner. -/

@[simp]
theorem runThunderEffect_weatherIntensity (r : ℚ) (s : SysState) :
    (runThunderEffect r s).page.weatherIntensity = s.page.weatherIntensity := by
  unfold runThunderEffect thunderEffectRun
  split
  · rfl
  · split <;> rfl

@[simp]
theorem runThunderEffect_isMuted (r : ℚ) (s : SysState) :
    (runThunderEffect r s).page.isMuted = s.page.isMuted := by
  unfold runThunderEffect thunderEffectRun
  split
  · rfl
  · split <;> rfl

@[simp]
theorem runThunderEffect_windowOpen (r : ℚ) (s : SysState) :
    (runThunderEffect r s).page.windowOpen = s.page.windowOpen := by
  unfold runThunderEffect thunderEffectRun
  split
  · rfl
  · split <;> rfl

@[simp]
theorem runThunderEffect_surface (r : ℚ) (s : SysState) :
    (runThunderEffect r s).page.surface = s.page.surface := by
  unfold runThunderEffect thunderEffectRun
  split
  · rfl
  · split <;> rfl

@[simp]
theorem runThunderEffect_volume (r : ℚ) (s : SysState) :
    (runThunderEffect r s).page.volume = s.page.volume := by
  unfold runThunderEffect thunderEffectRun
  split
  · rfl
  · split <;> rfl

@[simp]
theorem runThunderEffect_enableManualThunder (r : ℚ) (s : SysState) :
    (runThunderEffect r s).page.enableManualThunder = s.page.enableManualThunder := by
  unfold runThunderEffect thunderEffectRun
  split
  · rfl
  · split <;> rfl

@[simp]
theorem runThunderEffect_audio (r : ℚ) (s : SysState) :
    (runThunderEffect r s).audio = s.audio := by
  unfold runThunderEffect thunderEffectRun
  split
  · rfl
  · split <;> rfl

@[simp]
theorem runThunderEffect_depsAudio (r : ℚ) (s : SysState) :
    (runThunderEffect r s).depsAudio = s.depsAudio := by
  unfold runThunderEffect thunderEffectRun
  split
  · rfl
  · split <;> rfl

@[simp]
theorem runThunderEffect_depsVolume (r : ℚ) (s : SysState) :
    (runThunderEffect r s).depsVolume = s.depsVolume := by
  unfold runThunderEffect thunderEffectRun
  split
  · rfl
  · split <;> rfl

@[simp]
theorem runThunderEffect_flashClears (r : ℚ) (s : SysState) :
    (runThunderEffect r s).flashClears = s.flashClears := by
  unfold runThunderEffect thunderEffectRun
  split
  · rfl
  · split <;> rfl

@[simp]
theorem runThunderEffect_playedThunder (r : ℚ) (s : SysState) :
    (runThunderEffect r s).playedThunder = s.playedThunder := by
  unfold runThunderEffect thunderEffectRun
  split
  · rfl
  · split <;> rfl

@[simp]
theorem runThunderEffect_firedIds (r : ℚ) (s : SysState) :
    (runThunderEffect r s).firedIds = s.firedIds := by
  unfold runThunderEffect thunderEffectRun
  split
  · rfl
  · split <;> rfl

@[simp]
theorem runThunderEffect_depsThunder (r : ℚ) (s : SysState) :
    (runThunderEffect r s).depsThunder = some (thunderDeps s) := by
  unfold runThunderEffect
  split
  · assumption
  · rfl

theorem runThunderEffect_of_sync (r : ℚ) (s : SysState)
    (h : s.depsThunder = some (thunderDeps s)) : runThunderEffect r s = s := by
  unfold runThunderEffect; exact if_pos h

theorem runThunderEffect_run_heavy (r : ℚ) (s : SysState)
    (hd : s.depsThunder ≠ some (thunderDeps s))
    (hw : s.page.weatherIntensity = WeatherType.heavy) :
    (runThunderEffect r s).thunderTimer = some { id := s.nextTimerId, delay := thunderDelay r }
      ∧ (runThunderEffect r s).nextTimerId = s.nextTimerId + 1
      ∧ (runThunderEffect r s).page.isThundering = s.page.isThundering := by
  unfold runThunderEffect thunderEffectRun
  rw [if_neg hd]
  refine ⟨?_, ?_, ?_⟩ <;> simp [hw]

theorem runThunderEffect_run_notHeavy (r : ℚ) (s : SysState)
    (hd : s.depsThunder ≠ some (thunderDeps s))
    (hw : s.page.weatherIntensity ≠ WeatherType.heavy) :
    (runThunderEffect r s).thunderTimer = none
      ∧ (runThunderEffect r s).nextTimerId = s.nextTimerId
      ∧ (runThunderEffect r s).page.isThundering = false := by
  unfold runThunderEffect thunderEffectRun
  rw [if_neg hd]
  refine ⟨?_, ?_, ?_⟩ <;> simp [hw]

/- Frame lemmas for triggerThunder, triggerManualThunder, the two timeout
   firings, and handleIntensityChange. -/

@[simp]
theorem triggerThunder_weatherIntensity (s : SysState) :
    (triggerThunder s).page.weatherIntensity = s.page.weatherIntensity := by
  unfold triggerThunder; split <;> rfl

@[simp]
theorem triggerThunder_isMuted (s : SysState) :
    (triggerThunder s).page.isMuted = s.page.isMuted := by
  unfold triggerThunder; split <;> rfl

@[simp]
theorem triggerThunder_windowOpen (s : SysState) :
    (triggerThunder s).page.windowOpen = s.page.windowOpen := by
  unfold triggerThunder; split <;> rfl

@[simp]
theorem triggerThunder_surface (s : SysState) :
    (triggerThunder s).page.surface = s.page.surface := by
  unfold triggerThunder; split <;> rfl

@[simp]
theorem triggerThunder_volume (s : SysState) :
    (triggerThunder s).page.volume = s.page.volume := by
  unfold triggerThunder; split <;> rfl

@[simp]
theorem triggerThunder_isThundering (s : SysState) :
    (triggerThunder s).page.isThundering = true := by
  unfold triggerThunder; split <;> rfl

@[simp]
theorem triggerThunder_thunderTimer (s : SysState) :
    (triggerThunder s).thunderTimer = s.thunderTimer := by
  unfold triggerThunder; split <;> rfl

@[simp]
theorem triggerThunder_nextTimerId (s : SysState) :
    (triggerThunder s).nextTimerId = s.nextTimerId := by
  unfold triggerThunder; split <;> rfl

@[simp]
theorem triggerThunder_depsAudio (s : SysState) :
    (triggerThunder s).depsAudio = s.depsAudio := by
  unfold triggerThunder; split <;> rfl

@[simp]
theorem triggerThunder_depsVolume (s : SysState) :
    (triggerThunder s).depsVolume = s.depsVolume := by
  unfold triggerThunder; split <;> rfl

@[simp]
theorem triggerThunder_depsThunder (s : SysState) :
    (triggerThunder s).depsThunder = s.depsThunder := by
  unfold triggerThunder; split <;> rfl

@[simp]
theorem triggerThunder_firedIds (s : SysState) :
    (triggerThunder s).firedIds = s.firedIds := by
  unfold triggerThunder; split <;> rfl

@[simp]
theorem triggerThunder_flashClears (s : SysState) :
    (triggerThunder s).flashClears = 1000 :: s.flashClears := by
  unfold triggerThunder; split <;> rfl

@[simp]
theorem triggerThunder_audio (s : SysState) :
    (triggerThunder s).audio = s.audio := by
  unfold triggerThunder; split <;> rfl

theorem triggerThunder_playedThunder (s : SysState) :
    (triggerThunder s).playedThunder =
      if s.page.isMuted then s.playedThunder
      else (if s.page.windowOpen then (10 : Nat) else 5) :: s.playedThunder := by
  unfold triggerThunder; split <;> rfl

theorem triggerManualThunder_eq (s : SysState) :
    triggerManualThunder s = triggerThunder s := by
  unfold triggerManualThunder triggerThunder; rfl

theorem fireThunderTimer_of_none (s : SysState) (r : ℚ) (h : s.thunderTimer = none) :
    fireThunderTimer s r = s := by
  unfold fireThunderTimer; rw [h]

theorem fireThunderTimer_of_some (s : SysState) (r : ℚ) (t : TimerState)
    (h : s.thunderTimer = some t) :
    fireThunderTimer s r =
      { triggerThunder { s with firedIds := t.id :: s.firedIds } with
        thunderTimer := some { id := s.nextTimerId, delay := thunderDelay r }
        nextTimerId := s.nextTimerId + 1 } := by
  unfold fireThunderTimer
  rw [h]
  simp

theorem runFlashClear_of_nil (s : SysState) (h : s.flashClears = []) : runFlashClear s = s := by
  unfold runFlashClear; rw [h]

theorem runFlashClear_of_cons (s : SysState) (d : Nat) (rest : List Nat)
    (h : s.flashClears = d :: rest) :
    runFlashClear s = { s with flashClears := rest, page := { s.page with isThundering := false } } := by
  unfold runFlashClear; rw [h]

@[simp]
theorem runFlashClear_weatherIntensity (s : SysState) :
    (runFlashClear s).page.weatherIntensity = s.page.weatherIntensity := by
  unfold runFlashClear; split <;> rfl

@[simp]
theorem runFlashClear_isMuted (s : SysState) :
    (runFlashClear s).page.isMuted = s.page.isMuted := by
  unfold runFlashClear; split <;> rfl

@[simp]
theorem runFlashClear_windowOpen (s : SysState) :
    (runFlashClear s).page.windowOpen = s.page.windowOpen := by
  unfold runFlashClear; split <;> rfl

@[simp]
theorem runFlashClear_surface (s : SysState) :
    (runFlashClear s).page.surface = s.page.surface := by
  unfold runFlashClear; split <;> rfl

@[simp]
theorem runFlashClear_volume (s : SysState) :
    (runFlashClear s).page.volume = s.page.volume := by
  unfold runFlashClear; split <;> rfl

@[simp]
theorem runFlashClear_thunderTimer (s : SysState) :
    (runFlashClear s).thunderTimer = s.thunderTimer := by
  unfold runFlashClear; split <;> rfl

@[simp]
theorem runFlashClear_nextTimerId (s : SysState) :
    (runFlashClear s).nextTimerId = s.nextTimerId := by
  unfold runFlashClear; split <;> rfl

@[simp]
theorem runFlashClear_depsAudio (s : SysState) :
    (runFlashClear s).depsAudio = s.depsAudio := by
  unfold runFlashClear; split <;> rfl

@[simp]
theorem runFlashClear_depsVolume (s : SysState) :
    (runFlashClear s).depsVolume = s.depsVolume := by
  unfold runFlashClear; split <;> rfl

@[simp]
theorem runFlashClear_depsThunder (s : SysState) :
    (runFlashClear s).depsThunder = s.depsThunder := by
  unfold runFlashClear; split <;> rfl

@[simp]
theorem runFlashClear_firedIds (s : SysState) :
    (runFlashClear s).firedIds = s.firedIds := by
  unfold runFlashClear; split <;> rfl

@[simp]
theorem handleIntensityChange_weatherIntensity (s : SysState) (i : WeatherType) :
    (handleIntensityChange s i).page.weatherIntensity = i := rfl

@[simp]
theorem handleIntensityChange_isMuted (s : SysState) (i : WeatherType) :
    (handleIntensityChange s i).page.isMuted = false := rfl

@[simp]
theorem handleIntensityChange_windowOpen (s : SysState) (i : WeatherType) :
    (handleIntensityChange s i).page.windowOpen = s.page.windowOpen := rfl

@[simp]
theorem handleIntensityChange_surface (s : SysState) (i : WeatherType) :
    (handleIntensityChange s i).page.surface = s.page.surface := rfl

@[simp]
theorem handleIntensityChange_volume (s : SysState) (i : WeatherType) :
    (handleIntensityChange s i).page.volume = s.page.volume := rfl

@[simp]
theorem handleIntensityChange_thunderTimer (s : SysState) (i : WeatherType) :
    (handleIntensityChange s i).thunderTimer = s.thunderTimer := rfl

@[simp]
theorem handleIntensityChange_nextTimerId (s : SysState) (i : WeatherType) :
    (handleIntensityChange s i).nextTimerId = s.nextTimerId := rfl

@[simp]
theorem handleIntensityChange_depsVolume (s : SysState) (i : WeatherType) :
    (handleIntensityChange s i).depsVolume = s.depsVolume := rfl

@[simp]
theorem handleIntensityChange_depsThunder (s : SysState) (i : WeatherType) :
    (handleIntensityChange s i).depsThunder = s.depsThunder := rfl

@[simp]
theorem handleIntensityChange_firedIds (s : SysState) (i : WeatherType) :
    (handleIntensityChange s i).firedIds = s.firedIds := rfl

/- Sync and skip lemmas at the pass level. -/

theorem runAudioEffect_of_sync (s : SysState) (h : s.depsAudio = some (audioDeps s)) :
    runAudioEffect s = s := by
  unfold runAudioEffect; exact if_pos h

theorem runEffectPass_depsVolume (r : ℚ) (s : SysState) :
    (runEffectPass r s).depsVolume = some (runEffectPass r s).page.windowOpen := by
  simp [runEffectPass]

theorem runEffectPass_depsThunder (r : ℚ) (s : SysState) :
    (runEffectPass r s).depsThunder = some (thunderDeps (runEffectPass r s)) := by
  simp [runEffectPass, thunderDeps]

theorem secondPass_vol_skip (r : ℚ) (s : SysState) :
    runVolumeEffect (runAudioEffect (runEffectPass r s)) = runAudioEffect (runEffectPass r s) := by
  apply runVolumeEffect_of_sync
  simp [runEffectPass_depsVolume]

/- The second effect pass: the volume effect is already in sync, so it is
   the audio effect (picking up the new volume) followed by the thunder
   effect (already in sync, so in fact idle). -/
theorem runEffects_def2 (r : ℚ) (s : SysState) :
    runEffects r s = runThunderEffect r (runAudioEffect (runEffectPass r s)) := by
  have h0 : runEffects r s
      = runThunderEffect r (runVolumeEffect (runAudioEffect (runEffectPass r s))) := rfl
  rw [h0, secondPass_vol_skip]

theorem runEffects_synced (r : ℚ) (s : SysState) : DepsSynced (runEffects r s) := by
  rw [DepsSynced, runEffects_def2]
  refine ⟨?_, ?_, ?_⟩
  · simp [audioDeps]
  · simp [runEffectPass_depsVolume]
  · simp [thunderDeps]

theorem runEffectPass_of_synced (r : ℚ) (s : SysState) (h : DepsSynced s) :
    runEffectPass r s = s := by
  obtain ⟨h1, h2, h3⟩ := h
  unfold runEffectPass
  rw [runAudioEffect_of_sync s h1, runVolumeEffect_of_sync s h2, runThunderEffect_of_sync r s h3]

theorem runEffects_of_synced (r : ℚ) (s : SysState) (h : DepsSynced s) :
    runEffects r s = s := by
  unfold runEffects
  rw [runEffectPass_of_synced r s h, runEffectPass_of_synced r s h]

theorem step_synced (e : Event) (r : ℚ) (s : SysState) : DepsSynced (step e r s) := by
  cases e <;> exact runEffects_synced r _

/- Pass-level frame lemmas. -/

@[simp]
theorem runEffectPass_firedIds (r : ℚ) (s : SysState) :
    (runEffectPass r s).firedIds = s.firedIds := by
  simp [runEffectPass]

@[simp]
theorem runEffectPass_flashClears (r : ℚ) (s : SysState) :
    (runEffectPass r s).flashClears = s.flashClears := by
  simp [runEffectPass]

@[simp]
theorem runEffectPass_playedThunder (r : ℚ) (s : SysState) :
    (runEffectPass r s).playedThunder = s.playedThunder := by
  simp [runEffectPass]

@[simp]
theorem runEffectPass_weatherIntensity (r : ℚ) (s : SysState) :
    (runEffectPass r s).page.weatherIntensity = s.page.weatherIntensity := by
  simp [runEffectPass]

@[simp]
theorem runEffectPass_isMuted (r : ℚ) (s : SysState) :
    (runEffectPass r s).page.isMuted = s.page.isMuted := by
  simp [runEffectPass]

@[simp]
theorem runEffectPass_windowOpen (r : ℚ) (s : SysState) :
    (runEffectPass r s).page.windowOpen = s.page.windowOpen := by
  simp [runEffectPass]

@[simp]
theorem runEffectPass_surface (r : ℚ) (s : SysState) :
    (runEffectPass r s).page.surface = s.page.surface := by
  simp [runEffectPass]

@[simp]
theorem runEffectPass_enableManualThunder (r : ℚ) (s : SysState) :
    (runEffectPass r s).page.enableManualThunder = s.page.enableManualThunder := by
  simp [runEffectPass]

@[simp]
theorem runEffects_firedIds (r : ℚ) (s : SysState) :
    (runEffects r s).firedIds = s.firedIds := by
  simp [runEffects]

@[simp]
theorem runEffects_flashClears (r : ℚ) (s : SysState) :
    (runEffects r s).flashClears = s.flashClears := by
  simp [runEffects]

@[simp]
theorem runEffects_playedThunder (r : ℚ) (s : SysState) :
    (runEffects r s).playedThunder = s.playedThunder := by
  simp [runEffects]

@[simp]
theorem runEffects_weatherIntensity (r : ℚ) (s : SysState) :
    (runEffects r s).page.weatherIntensity = s.page.weatherIntensity := by
  simp [runEffects]

@[simp]
theorem runEffects_isMuted (r : ℚ) (s : SysState) :
    (runEffects r s).page.isMuted = s.page.isMuted := by
  simp [runEffects]

@[simp]
theorem runEffects_windowOpen (r : ℚ) (s : SysState) :
    (runEffects r s).page.windowOpen = s.page.windowOpen := by
  simp [runEffects]

@[simp]
theorem runEffects_surface (r : ℚ) (s : SysState) :
    (runEffects r s).page.surface = s.page.surface := by
  simp [runEffects]

@[simp]
theorem runEffects_enableManualThunder (r : ℚ) (s : SysState) :
    (runEffects r s).page.enableManualThunder = s.page.enableManualThunder := by
  simp [runEffects]

/- ThunderInv is preserved through the effect machinery. -/

theorem thunderInv_runAudioEffect (s : SysState) (h : ThunderInv s) :
    ThunderInv (runAudioEffect s) := by
  intro t ht
  simp only [runAudioEffect_thunderTimer] at ht
  simpa using h t ht

theorem thunderInv_runVolumeEffect (s : SysState) (h : ThunderInv s) :
    ThunderInv (runVolumeEffect s) := by
  intro t ht
  simp only [runVolumeEffect_thunderTimer] at ht
  simpa using h t ht

theorem thunderInv_runThunderEffect (r : ℚ) (s : SysState)
    (h : s.depsThunder = some (thunderDeps s) → ThunderInv s) :
    ThunderInv (runThunderEffect r s) := by
  by_cases hd : s.depsThunder = some (thunderDeps s)
  · rw [runThunderEffect_of_sync r s hd]; exact h hd
  · by_cases hw : s.page.weatherIntensity = WeatherType.heavy
    · obtain ⟨h1, h2, _⟩ := runThunderEffect_run_heavy r s hd hw
      intro t ht
      rw [h1] at ht
      have ht2 := Option.some.inj ht
      constructor
      · rw [runThunderEffect_weatherIntensity]; exact hw
      · rw [h2, ← ht2]; exact Nat.lt_succ_self _
    · obtain ⟨h1, _, _⟩ := runThunderEffect_run_notHeavy r s hd hw
      intro t ht
      rw [h1] at ht
      simp at ht

theorem thunderInv_runEffectPass (r : ℚ) (s : SysState)
    (h : s.depsThunder = some (thunderDeps s) → ThunderInv s) :
    ThunderInv (runEffectPass r s) := by
  unfold runEffectPass
  apply thunderInv_runThunderEffect
  intro hd
  have hd2 : s.depsThunder = some (thunderDeps s) := by
    simpa [thunderDeps] using hd
  exact thunderInv_runVolumeEffect _ (thunderInv_runAudioEffect _ (h hd2))

theorem thunderInv_runEffects (r : ℚ) (s : SysState)
    (h : s.depsThunder = some (thunderDeps s) → ThunderInv s) :
    ThunderInv (runEffects r s) := by
  unfold runEffects
  apply thunderInv_runEffectPass
  intro _
  exact thunderInv_runEffectPass r s h

/- The volume derived from windowOpen after an effect pass. -/

theorem volume_runEffectPass (r : ℚ) (s : SysState) (h : VolInv s) :
    (runEffectPass r s).page.volume
      = (if (runEffectPass r s).page.windowOpen then (8 : Nat) else 3) := by
  rw [runEffectPass_windowOpen]
  have hv2 : (runEffectPass r s).page.volume
      = (runVolumeEffect (runAudioEffect s)).page.volume := by
    simp [runEffectPass]
  rw [hv2]
  by_cases hv : s.depsVolume = some s.page.windowOpen
  · have hskip : runVolumeEffect (runAudioEffect s) = runAudioEffect s := by
      apply runVolumeEffect_of_sync
      simp [hv]
    rw [hskip]
    have ha : (runAudioEffect s).page.volume = s.page.volume := by simp
    rw [ha]
    exact h hv
  · have hne : (runAudioEffect s).depsVolume ≠ some (runAudioEffect s).page.windowOpen := by
      simp [hv]
    rw [runVolumeEffect_volume_run (runAudioEffect s) hne]
    simp

theorem volume_runEffects (r : ℚ) (s : SysState) (h : VolInv s) :
    (runEffects r s).page.volume
      = (if (runEffects r s).page.windowOpen then (8 : Nat) else 3) := by
  unfold runEffects
  apply volume_runEffectPass
  intro _
  exact volume_runEffectPass r s h

/- ThunderInv across a whole step.  The second hypothesis says the
   thunder dependency snapshot is honest whenever a timeout is pending;
   it holds in every reachable state. -/

theorem thunderInv_step (e : Event) (r : ℚ) (s : SysState)
    (hThun : ThunderInv s)
    (hDeps : ∀ t, s.thunderTimer = some t → s.depsThunder = some (thunderDeps s)) :
    ThunderInv (step e r s) := by
  cases e
  case mount =>
    exact thunderInv_runEffects r s (fun _ => hThun)
  case intensityClick i =>
    simp only [step]
    apply thunderInv_runEffects
    intro hsync
    intro t ht
    simp only [handleIntensityChange_thunderTimer] at ht
    have hdeps := hDeps t ht
    simp only [handleIntensityChange_depsThunder] at hsync
    rw [hdeps] at hsync
    have htup := Option.some.inj hsync
    have hw := (hThun t ht).1
    simp only [thunderDeps, handleIntensityChange_weatherIntensity,
      handleIntensityChange_isMuted, handleIntensityChange_windowOpen] at htup
    constructor
    · rw [handleIntensityChange_weatherIntensity]
      have hfst : s.page.weatherIntensity = i := congrArg Prod.fst htup
      rw [← hfst]
      exact hw
    · rw [handleIntensityChange_nextTimerId]
      exact (hThun t ht).2
  case timeClick t0 =>
    simp only [step]
    apply thunderInv_runEffects
    intro _
    exact fun t ht => hThun t ht
  case controlsToggle =>
    simp only [step]
    apply thunderInv_runEffects
    intro _
    exact fun t ht => hThun t ht
  case soundSwitch c =>
    simp only [step]
    apply thunderInv_runEffects
    intro _
    exact fun t ht => hThun t ht
  case windowSwitch b =>
    simp only [step]
    apply thunderInv_runEffects
    intro _
    exact fun t ht => hThun t ht
  case surfaceSelect surf =>
    simp only [step]
    apply thunderInv_runEffects
    intro _
    exact fun t ht => hThun t ht
  case manualThunderSwitch b =>
    simp only [step]
    apply thunderInv_runEffects
    intro _
    exact fun t ht => hThun t ht
  case manualThunderClick =>
    simp only [step]
    apply thunderInv_runEffects
    intro _
    rw [triggerManualThunder_eq]
    intro t ht
    simp only [triggerThunder_thunderTimer] at ht
    have := hThun t ht
    simpa using this
  case thunderFires =>
    simp only [step]
    apply thunderInv_runEffects
    intro _
    cases hu : s.thunderTimer with
    | none =>
      rw [fireThunderTimer_of_none s r hu]
      exact hThun
    | some u =>
      rw [fireThunderTimer_of_some s r u hu]
      intro t ht
      simp only at ht
      have ht2 := Option.some.inj ht
      constructor
      · have hw := (hThun u hu).1
        simpa using hw
      · rw [← ht2]
        exact Nat.lt_succ_self _
  case flashClearFires =>
    simp only [step]
    apply thunderInv_runEffects
    intro _
    intro t ht
    simp only [runFlashClear_thunderTimer] at ht
    have := hThun t ht
    simpa using this

/- Frame lemmas for fireThunderTimer. -/

@[simp]
theorem fireThunderTimer_weatherIntensity (s : SysState) (r : ℚ) :
    (fireThunderTimer s r).page.weatherIntensity = s.page.weatherIntensity := by
  unfold fireThunderTimer
  cases s.thunderTimer <;> simp

@[simp]
theorem fireThunderTimer_isMuted (s : SysState) (r : ℚ) :
    (fireThunderTimer s r).page.isMuted = s.page.isMuted := by
  unfold fireThunderTimer
  cases s.thunderTimer <;> simp

@[simp]
theorem fireThunderTimer_windowOpen (s : SysState) (r : ℚ) :
    (fireThunderTimer s r).page.windowOpen = s.page.windowOpen := by
  unfold fireThunderTimer
  cases s.thunderTimer <;> simp

@[simp]
theorem fireThunderTimer_volume (s : SysState) (r : ℚ) :
    (fireThunderTimer s r).page.volume = s.page.volume := by
  unfold fireThunderTimer
  cases s.thunderTimer <;> simp

@[simp]
theorem fireThunderTimer_surface (s : SysState) (r : ℚ) :
    (fireThunderTimer s r).page.surface = s.page.surface := by
  unfold fireThunderTimer
  cases s.thunderTimer <;> simp

@[simp]
theorem fireThunderTimer_depsAudio (s : SysState) (r : ℚ) :
    (fireThunderTimer s r).depsAudio = s.depsAudio := by
  unfold fireThunderTimer
  cases s.thunderTimer <;> simp

@[simp]
theorem fireThunderTimer_depsVolume (s : SysState) (r : ℚ) :
    (fireThunderTimer s r).depsVolume = s.depsVolume := by
  unfold fireThunderTimer
  cases s.thunderTimer <;> simp

@[simp]
theorem fireThunderTimer_depsThunder (s : SysState) (r : ℚ) :
    (fireThunderTimer s r).depsThunder = s.depsThunder := by
  unfold fireThunderTimer
  cases s.thunderTimer <;> simp

theorem fireThunderTimer_firedIds_some (s : SysState) (r : ℚ) (u : TimerState)
    (hu : s.thunderTimer = some u) :
    (fireThunderTimer s r).firedIds = u.id :: s.firedIds := by
  rw [fireThunderTimer_of_some s r u hu]
  simp

/- VolInv transfers along states that agree on the relevant fields. -/
theorem volInv_of_fields (x s : SysState)
    (hd : x.depsVolume = s.depsVolume) (hw : x.page.windowOpen = s.page.windowOpen)
    (hv : x.page.volume = s.page.volume) (h : VolInv s) : VolInv x := by
  intro hp
  rw [hd, hw] at hp
  rw [hv, hw]
  exact h hp

/- After any step the volume is the one derived from windowOpen. -/
theorem volume_step (e : Event) (r : ℚ) (s : SysState)
    (h1 : s.depsVolume = none ∨ s.depsVolume = some s.page.windowOpen)
    (h2 : VolInv s) :
    (step e r s).page.volume = (if (step e r s).page.windowOpen then (8 : Nat) else 3) := by
  cases e
  case mount => exact volume_runEffects r s h2
  case intensityClick i =>
    simp only [step]
    apply volume_runEffects
    exact volInv_of_fields _ s rfl rfl rfl h2
  case timeClick t0 =>
    simp only [step]
    apply volume_runEffects
    exact volInv_of_fields _ s rfl rfl rfl h2
  case controlsToggle =>
    simp only [step]
    apply volume_runEffects
    exact volInv_of_fields _ s rfl rfl rfl h2
  case soundSwitch c =>
    simp only [step]
    apply volume_runEffects
    exact volInv_of_fields _ s rfl rfl rfl h2
  case windowSwitch b =>
    simp only [step]
    apply volume_runEffects
    intro hp
    have hp2 : s.depsVolume = some b := hp
    show s.page.volume = (if b then (8 : Nat) else 3)
    rcases h1 with hn | hs
    · rw [hn] at hp2
      exact Option.noConfusion hp2
    · have hb : s.page.windowOpen = b := by
        rw [hs] at hp2
        exact Option.some.inj hp2
      rw [← hb]
      exact h2 hs
  case surfaceSelect surf =>
    simp only [step]
    apply volume_runEffects
    exact volInv_of_fields _ s rfl rfl rfl h2
  case manualThunderSwitch b =>
    simp only [step]
    apply volume_runEffects
    exact volInv_of_fields _ s rfl rfl rfl h2
  case manualThunderClick =>
    simp only [step]
    apply volume_runEffects
    rw [triggerManualThunder_eq]
    exact volInv_of_fields _ s (triggerThunder_depsVolume s) (triggerThunder_windowOpen s)
      (triggerThunder_volume s) h2
  case thunderFires =>
    simp only [step]
    apply volume_runEffects
    exact volInv_of_fields _ s (fireThunderTimer_depsVolume s r) (fireThunderTimer_windowOpen s r)
      (fireThunderTimer_volume s r) h2
  case flashClearFires =>
    simp only [step]
    apply volume_runEffects
    exact volInv_of_fields _ s (runFlashClear_depsVolume s) (runFlashClear_windowOpen s)
      (runFlashClear_volume s) h2

/- The combined invariant of every reachable state. -/
theorem reachable_props (s : SysState) (h : Reachable s) :
    ThunderInv s
      ∧ (∀ t, s.thunderTimer = some t → s.depsThunder = some (thunderDeps s))
      ∧ (s.depsVolume = none ∨ s.depsVolume = some s.page.windowOpen)
      ∧ VolInv s
      ∧ (s = initState
          ∨ (DepsSynced s
              ∧ s.page.volume = (if s.page.windowOpen then (8 : Nat) else 3))) := by
  induction h with
  | refl =>
    refine ⟨?_, ?_, ?_, ?_, Or.inl rfl⟩
    · intro t ht
      exact Option.noConfusion ht
    · intro t ht
      exact Option.noConfusion ht
    · exact Or.inl rfl
    · intro hp
      exact Option.noConfusion hp
  | tail s e r hr0 hr1 hv hre ih =>
    obtain ⟨iT, iD, iV1, iV2, _⟩ := ih
    refine ⟨?_, ?_, ?_, ?_, ?_⟩
    · exact thunderInv_step e r s iT iD
    · intro t _
      exact (step_synced e r s).2.2
    · exact Or.inr (step_synced e r s).2.1
    · intro _
      exact volume_step e r s iV1 iV2
    · exact Or.inr ⟨step_synced e r s, volume_step e r s iV1 iV2⟩

/- Trace lemmas. -/

theorem runTrace_nil (s : SysState) : runTrace [] s = s := rfl

theorem runTrace_cons (p : Event × ℚ) (tl : List (Event × ℚ)) (s : SysState) :
    runTrace (p :: tl) s = runTrace tl (step p.1 p.2 s) := rfl

/- While the intensity is away from heavy and no event re-enters heavy,
   the (absent) thunder timeout stays absent and nothing fires. -/

theorem runEffectPass_timer_none (r : ℚ) (x : SysState)
    (ht : x.thunderTimer = none) (hw : x.page.weatherIntensity ≠ WeatherType.heavy) :
    (runEffectPass r x).thunderTimer = none := by
  unfold runEffectPass
  by_cases hd : (runVolumeEffect (runAudioEffect x)).depsThunder
      = some (thunderDeps (runVolumeEffect (runAudioEffect x)))
  · rw [runThunderEffect_of_sync r _ hd]
    simp [ht]
  · have hw2 : (runVolumeEffect (runAudioEffect x)).page.weatherIntensity
        ≠ WeatherType.heavy := by simpa using hw
    exact (runThunderEffect_run_notHeavy r _ hd hw2).1

theorem runEffects_timer_none (r : ℚ) (x : SysState)
    (ht : x.thunderTimer = none) (hw : x.page.weatherIntensity ≠ WeatherType.heavy) :
    (runEffects r x).thunderTimer = none := by
  unfold runEffects
  apply runEffectPass_timer_none
  · exact runEffectPass_timer_none r x ht hw
  · simpa using hw

theorem step_frozen_notHeavy (e : Event) (r : ℚ) (s : SysState)
    (ht : s.thunderTimer = none)
    (hw : s.page.weatherIntensity ≠ WeatherType.heavy)
    (he : e ≠ Event.intensityClick WeatherType.heavy) :
    (step e r s).thunderTimer = none
      ∧ (step e r s).page.weatherIntensity ≠ WeatherType.heavy
      ∧ (step e r s).firedIds = s.firedIds := by
  cases e
  case mount =>
    exact ⟨runEffects_timer_none r s ht hw, by simp only [step, runEffects_weatherIntensity]; exact hw, by simp [step]⟩
  case intensityClick i =>
    have hi : i ≠ WeatherType.heavy := by
      intro hcon
      exact he (by rw [hcon])
    refine ⟨?_, ?_, ?_⟩
    · simp only [step]
      apply runEffects_timer_none
      · simpa using ht
      · simpa using hi
    · simp only [step]
      simpa using hi
    · simp [step]
  case timeClick t0 =>
    exact ⟨runEffects_timer_none r _ ht hw, by simp only [step, runEffects_weatherIntensity]; exact hw, by simp [step]⟩
  case controlsToggle =>
    exact ⟨runEffects_timer_none r _ ht hw, by simp only [step, runEffects_weatherIntensity]; exact hw, by simp [step]⟩
  case soundSwitch c =>
    exact ⟨runEffects_timer_none r _ ht hw, by simp only [step, runEffects_weatherIntensity]; exact hw, by simp [step]⟩
  case windowSwitch b =>
    exact ⟨runEffects_timer_none r _ ht hw, by simp only [step, runEffects_weatherIntensity]; exact hw, by simp [step]⟩
  case surfaceSelect surf =>
    exact ⟨runEffects_timer_none r _ ht hw, by simp only [step, runEffects_weatherIntensity]; exact hw, by simp [step]⟩
  case manualThunderSwitch b =>
    exact ⟨runEffects_timer_none r _ ht hw, by simp only [step, runEffects_weatherIntensity]; exact hw, by simp [step]⟩
  case manualThunderClick =>
    refine ⟨?_, ?_, ?_⟩
    · simp only [step]
      apply runEffects_timer_none
      · rw [triggerManualThunder_eq, triggerThunder_thunderTimer]
        exact ht
      · rw [triggerManualThunder_eq, triggerThunder_weatherIntensity]
        exact hw
    · simp only [step]
      rw [runEffects_weatherIntensity, triggerManualThunder_eq, triggerThunder_weatherIntensity]
      exact hw
    · simp only [step]
      rw [runEffects_firedIds, triggerManualThunder_eq, triggerThunder_firedIds]
  case thunderFires =>
    refine ⟨?_, ?_, ?_⟩
    · simp only [step]
      rw [fireThunderTimer_of_none s r ht]
      exact runEffects_timer_none r s ht hw
    · simp only [step]
      rw [fireThunderTimer_of_none s r ht]
      simpa using hw
    · simp only [step]
      rw [fireThunderTimer_of_none s r ht, runEffects_firedIds]
  case flashClearFires =>
    refine ⟨?_, ?_, ?_⟩
    · simp only [step]
      apply runEffects_timer_none
      · rw [runFlashClear_thunderTimer]
        exact ht
      · rw [runFlashClear_weatherIntensity]
        exact hw
    · simp only [step]
      rw [runEffects_weatherIntensity, runFlashClear_weatherIntensity]
      exact hw
    · simp only [step]
      rw [runEffects_firedIds, runFlashClear_firedIds]

theorem trace_frozen_notHeavy (tr : List (Event × ℚ)) (s : SysState)
    (ht : s.thunderTimer = none)
    (hw : s.page.weatherIntensity ≠ WeatherType.heavy)
    (htr : ∀ p ∈ tr, p.1 ≠ Event.intensityClick WeatherType.heavy) :
    (runTrace tr s).firedIds = s.firedIds := by
  induction tr generalizing s with
  | nil => rfl
  | cons p tl ih =>
    rw [runTrace_cons]
    obtain ⟨h1, h2, h3⟩ :=
      step_frozen_notHeavy p.1 p.2 s ht hw (htr p (List.mem_cons_self p tl))
    rw [ih (step p.1 p.2 s) h1 h2 (fun q hq => htr q (List.mem_cons_of_mem p hq))]
    exact h3

/- IdGuard machinery: once a handle is dead, every later handle is
   strictly larger. -/

theorem idGuard_of_fields (x s : SysState) (g : Nat)
    (ht : x.thunderTimer = s.thunderTimer) (hn : x.nextTimerId = s.nextTimerId)
    (h : IdGuard g s) : IdGuard g x := by
  constructor
  · intro u hu
    rw [ht] at hu
    exact h.1 u hu
  · rw [hn]
    exact h.2

theorem idGuard_runThunderEffect (g : Nat) (r : ℚ) (s : SysState) (h : IdGuard g s) :
    IdGuard g (runThunderEffect r s) := by
  by_cases hd : s.depsThunder = some (thunderDeps s)
  · rw [runThunderEffect_of_sync r s hd]
    exact h
  · by_cases hw : s.page.weatherIntensity = WeatherType.heavy
    · obtain ⟨h1, h2, _⟩ := runThunderEffect_run_heavy r s hd hw
      constructor
      · intro u hu
        rw [h1] at hu
        rw [← Option.some.inj hu]
        exact h.2
      · rw [h2]
        exact Nat.lt_succ_of_lt h.2
    · obtain ⟨h1, h2, _⟩ := runThunderEffect_run_notHeavy r s hd hw
      constructor
      · intro u hu
        rw [h1] at hu
        exact Option.noConfusion hu
      · rw [h2]
        exact h.2

theorem idGuard_runEffectPass (g : Nat) (r : ℚ) (s : SysState) (h : IdGuard g s) :
    IdGuard g (runEffectPass r s) := by
  unfold runEffectPass
  apply idGuard_runThunderEffect
  exact idGuard_of_fields _ s g (by simp) (by simp) h

theorem idGuard_runEffects (g : Nat) (r : ℚ) (s : SysState) (h : IdGuard g s) :
    IdGuard g (runEffects r s) := by
  unfold runEffects
  exact idGuard_runEffectPass g r _ (idGuard_runEffectPass g r s h)

theorem idGuard_fireThunderTimer (g : Nat) (r : ℚ) (s : SysState) (h : IdGuard g s) :
    IdGuard g (fireThunderTimer s r) := by
  cases hu : s.thunderTimer with
  | none =>
    rw [fireThunderTimer_of_none s r hu]
    exact h
  | some u =>
    rw [fireThunderTimer_of_some s r u hu]
    constructor
    · intro v hv
      have hv2 := Option.some.inj hv
      rw [← hv2]
      exact h.2
    · exact Nat.lt_succ_of_lt h.2

theorem idGuard_step (e : Event) (r : ℚ) (s : SysState) (g : Nat) (h : IdGuard g s) :
    IdGuard g (step e r s) := by
  cases e
  case mount => exact idGuard_runEffects g r s h
  case intensityClick i =>
    exact idGuard_runEffects g r _ (idGuard_of_fields _ s g rfl rfl h)
  case timeClick t0 =>
    exact idGuard_runEffects g r _ (idGuard_of_fields _ s g rfl rfl h)
  case controlsToggle =>
    exact idGuard_runEffects g r _ (idGuard_of_fields _ s g rfl rfl h)
  case soundSwitch c =>
    exact idGuard_runEffects g r _ (idGuard_of_fields _ s g rfl rfl h)
  case windowSwitch b =>
    exact idGuard_runEffects g r _ (idGuard_of_fields _ s g rfl rfl h)
  case surfaceSelect surf =>
    exact idGuard_runEffects g r _ (idGuard_of_fields _ s g rfl rfl h)
  case manualThunderSwitch b =>
    exact idGuard_runEffects g r _ (idGuard_of_fields _ s g rfl rfl h)
  case manualThunderClick =>
    apply idGuard_runEffects
    rw [triggerManualThunder_eq]
    exact idGuard_of_fields _ s g (triggerThunder_thunderTimer s) (triggerThunder_nextTimerId s) h
  case thunderFires =>
    exact idGuard_runEffects g r _ (idGuard_fireThunderTimer g r s h)
  case flashClearFires =>
    exact idGuard_runEffects g r _
      (idGuard_of_fields _ s g (runFlashClear_thunderTimer s) (runFlashClear_nextTimerId s) h)

theorem step_firedIds_mem (e : Event) (r : ℚ) (s : SysState) (g : Nat) (h : IdGuard g s) :
    ∀ j ∈ (step e r s).firedIds, j ∈ s.firedIds ∨ g < j := by
  cases e
  case thunderFires =>
    intro j hj
    simp only [step, runEffects_firedIds] at hj
    cases hu : s.thunderTimer with
    | none =>
      rw [fireThunderTimer_of_none s r hu] at hj
      exact Or.inl hj
    | some u =>
      rw [fireThunderTimer_firedIds_some s r u hu] at hj
      rcases List.mem_cons.mp hj with hj1 | hj2
      · right
        rw [hj1]
        exact h.1 u hu
      · exact Or.inl hj2
  case mount =>
    intro j hj
    simp only [step, runEffects_firedIds] at hj
    exact Or.inl hj
  case intensityClick i =>
    intro j hj
    simp only [step, runEffects_firedIds, handleIntensityChange_firedIds] at hj
    exact Or.inl hj
  case timeClick t0 =>
    intro j hj
    simp only [step, runEffects_firedIds] at hj
    exact Or.inl hj
  case controlsToggle =>
    intro j hj
    simp only [step, runEffects_firedIds] at hj
    exact Or.inl hj
  case soundSwitch c =>
    intro j hj
    simp only [step, runEffects_firedIds] at hj
    exact Or.inl hj
  case windowSwitch b =>
    intro j hj
    simp only [step, runEffects_firedIds] at hj
    exact Or.inl hj
  case surfaceSelect surf =>
    intro j hj
    simp only [step, runEffects_firedIds] at hj
    exact Or.inl hj
  case manualThunderSwitch b =>
    intro j hj
    simp only [step, runEffects_firedIds] at hj
    exact Or.inl hj
  case manualThunderClick =>
    intro j hj
    simp only [step, runEffects_firedIds, triggerManualThunder_eq, triggerThunder_firedIds] at hj
    exact Or.inl hj
  case flashClearFires =>
    intro j hj
    simp only [step, runEffects_firedIds, runFlashClear_firedIds] at hj
    exact Or.inl hj

theorem trace_firedIds_mem (tr : List (Event × ℚ)) (s : SysState) (g : Nat)
    (h : IdGuard g s) :
    ∀ j ∈ (runTrace tr s).firedIds, j ∈ s.firedIds ∨ g < j := by
  induction tr generalizing s with
  | nil =>
    intro j hj
    exact Or.inl hj
  | cons p tl ih =>
    intro j hj
    rw [runTrace_cons] at hj
    rcases ih (step p.1 p.2 s) (idGuard_step p.1 p.2 s g h) j hj with hl | hr
    · exact step_firedIds_mem p.1 p.2 s g h j hl
    · exact Or.inr hr

/- Timer is absent in any reachable state away from heavy. -/
theorem reachable_timer_none_of_notHeavy (s : SysState) (hre : Reachable s)
    (hw : s.page.weatherIntensity ≠ WeatherType.heavy) : s.thunderTimer = none := by
  cases ht : s.thunderTimer with
  | none => rfl
  | some t => exact absurd ((reachable_props s hre).1 t ht).1 hw

/- Clicking a non-heavy intensity while the thunder effect is synced on a
   heavy state re-runs the effect: cleanup clears the timeout and the body
   switches the flash off. -/
theorem leavingHeavy_core (s : SysState) (i : WeatherType) (r : ℚ)
    (hsync : s.depsThunder = some (thunderDeps s))
    (hw : s.page.weatherIntensity = WeatherType.heavy)
    (hi : i ≠ WeatherType.heavy) :
    (step (Event.intensityClick i) r s).thunderTimer = none
      ∧ (step (Event.intensityClick i) r s).page.isThundering = false := by
  simp only [step]
  set X := handleIntensityChange s i with hX
  set y := runVolumeEffect (runAudioEffect X) with hy
  have hyd : y.depsThunder = some (thunderDeps s) := by
    rw [hy, hX]
    simp [hsync]
  have hyw : y.page.weatherIntensity = i := by
    rw [hy, hX]
    simp
  have hne : y.depsThunder ≠ some (thunderDeps y) := by
    rw [hyd]
    intro hcon
    have htd := Option.some.inj hcon
    have h1 : s.page.weatherIntensity = y.page.weatherIntensity := congrArg Prod.fst htd
    rw [hw, hyw] at h1
    exact hi h1.symm
  have hyw2 : y.page.weatherIntensity ≠ WeatherType.heavy := by
    rw [hyw]
    exact hi
  obtain ⟨p1t, _, p1i⟩ := runThunderEffect_run_notHeavy r y hne hyw2
  have hpass1 : runEffectPass r X = runThunderEffect r y := by
    rw [hy]
    rfl
  rw [runEffects_def2]
  set z := runAudioEffect (runEffectPass r X) with hz
  have hzsync : z.depsThunder = some (thunderDeps z) := by
    rw [hz, runAudioEffect_depsThunder, runEffectPass_depsThunder]
    simp [thunderDeps]
  rw [runThunderEffect_of_sync r z hzsync]
  constructor
  · rw [hz, runAudioEffect_thunderTimer, hpass1, p1t]
  · rw [hz, runAudioEffect_page, hpass1, p1i]

/-- Claim C6: the raindrop count produced by the particle renderer is
exactly 50 for light, 150 for medium, 400 for heavy, and 100 for any
other intensity value (the switch's default branch). -/
theorem drop_count_by_intensity :
    dropCount "light" = 50 ∧ dropCount "medium" = 150 ∧ dropCount "heavy" = 400
      ∧ ∀ s : String, s ≠ "light" → s ≠ "medium" → s ≠ "heavy" → dropCount s = 100 := by
  refine ⟨rfl, rfl, rfl, ?_⟩
  intro s h1 h2 h3
  unfold dropCount
  rw [if_neg h1, if_neg h2, if_neg h3]

/-- Witness for C6 at the concrete out-of-enum intensity string. -/
theorem drop_count_by_intensity_witness : dropCount "storm" = 100 :=
  drop_count_by_intensity.2.2.2 "storm" (by decide) (by decide) (by decide)

/-- Claim C7: for random draws in [0,1), every generated raindrop has
left-offset in [0,100) percent, animation duration in [0.5,1.0) seconds,
start delay in [0,2.0) seconds, and opacity in [0.1,0.6). -/
theorem raindrop_fields_in_range :
    ∀ (intensity : String) (rnd : Nat → ℚ), (∀ n, 0 ≤ rnd n ∧ rnd n < 1) →
      ∀ d ∈ rainDrops intensity rnd,
        (0 ≤ d.left ∧ d.left < 100)
          ∧ (0.5 ≤ d.animationDuration ∧ d.animationDuration < 1)
          ∧ (0 ≤ d.animationDelay ∧ d.animationDelay < 2)
          ∧ (0.1 ≤ d.opacity ∧ d.opacity < 0.6) := by
  intro intensity rnd hr d hd
  obtain ⟨i, _, hmk⟩ := List.mem_map.mp hd
  rw [← hmk]
  obtain ⟨ha0, ha1⟩ := hr (4 * i)
  obtain ⟨hb0, hb1⟩ := hr (4 * i + 1)
  obtain ⟨hc0, hc1⟩ := hr (4 * i + 2)
  obtain ⟨he0, he1⟩ := hr (4 * i + 3)
  unfold mkRaindrop
  refine ⟨⟨?_, ?_⟩, ⟨?_, ?_⟩, ⟨?_, ?_⟩, ⟨?_, ?_⟩⟩ <;> dsimp only <;> nlinarith

/-- Witness for C7: the first drop of a light batch with all draws 0. -/
theorem raindrop_fields_in_range_witness :
    (0 ≤ (mkRaindrop 0 0 0 0 0).left ∧ (mkRaindrop 0 0 0 0 0).left < 100)
      ∧ ((0.5 : ℚ) ≤ (mkRaindrop 0 0 0 0 0).animationDuration
          ∧ (mkRaindrop 0 0 0 0 0).animationDuration < 1)
      ∧ (0 ≤ (mkRaindrop 0 0 0 0 0).animationDelay
          ∧ (mkRaindrop 0 0 0 0 0).animationDelay < 2)
      ∧ ((0.1 : ℚ) ≤ (mkRaindrop 0 0 0 0 0).opacity
          ∧ (mkRaindrop 0 0 0 0 0).opacity < 0.6) :=
  raindrop_fields_in_range "light" (fun _ => 0) (fun _ => ⟨le_refl 0, zero_lt_one⟩)
    (mkRaindrop 0 0 0 0 0)
    (List.mem_map.mpr ⟨0, List.mem_range.mpr (by decide), rfl⟩)

/-- Claim C4: while heavy, each flash is scheduled after a delay
5000 + r * 10000 that ranges over exactly [5000,15000) as the uniform
draw r ranges over [0,1) (stated via the range, strict monotonicity, and
surjectivity of the affine map), and consecutive flash inter-arrival
times fall in [5000,15000). -/
theorem thunder_delay_uniform_range :
    ∀ rnd : Nat → ℚ, (∀ n, 0 ≤ rnd n ∧ rnd n < 1) →
      (∀ n, 5000 ≤ thunderDelay (rnd n) ∧ thunderDelay (rnd n) < 15000)
        ∧ (∀ q q' : ℚ, q < q' → thunderDelay q < thunderDelay q')
        ∧ (∀ d : ℚ, 5000 ≤ d → d < 15000 → ∃ q, 0 ≤ q ∧ q < 1 ∧ thunderDelay q = d)
        ∧ (∀ n, 5000 ≤ flashTime rnd (n + 1) - flashTime rnd n
            ∧ flashTime rnd (n + 1) - flashTime rnd n < 15000) := by
  intro rnd hr
  have hrange : ∀ q : ℚ, 0 ≤ q → q < 1 → 5000 ≤ thunderDelay q ∧ thunderDelay q < 15000 := by
    intro q h0 h1
    unfold thunderDelay
    constructor <;> nlinarith
  refine ⟨?_, ?_, ?_, ?_⟩
  · intro n
    exact hrange _ (hr n).1 (hr n).2
  · intro q q' hq
    unfold thunderDelay
    nlinarith
  · intro d h0 h1
    refine ⟨(d - 5000) / 10000, ?_, ?_, ?_⟩
    · apply div_nonneg
      · linarith
      · norm_num
    · rw [div_lt_one (by norm_num)]
      linarith
    · unfold thunderDelay
      field_simp
  · intro n
    have hstep : flashTime rnd (n + 1) - flashTime rnd n = thunderDelay (rnd (n + 1)) := by
      simp [flashTime]
    rw [hstep]
    exact hrange _ (hr (n + 1)).1 (hr (n + 1)).2

/-- Witness for C4 at the all-zero draw sequence. -/
theorem thunder_delay_uniform_range_witness :
    (5000 ≤ thunderDelay ((fun _ => (0 : ℚ)) 0)
        ∧ thunderDelay ((fun _ => (0 : ℚ)) 0) < 15000)
      ∧ (5000 ≤ flashTime (fun _ => (0 : ℚ)) 1 - flashTime (fun _ => (0 : ℚ)) 0
          ∧ flashTime (fun _ => (0 : ℚ)) 1 - flashTime (fun _ => (0 : ℚ)) 0 < 15000) :=
  ⟨(thunder_delay_uniform_range (fun _ => 0) (fun _ => ⟨le_refl 0, zero_lt_one⟩)).1 0,
    (thunder_delay_uniform_range (fun _ => 0) (fun _ => ⟨le_refl 0, zero_lt_one⟩)).2.2.2 0⟩

/-- Claim C5: AUDIO_SOURCES assigns every surface the same URL at all
three intensities, so changing only the intensity never produces a
target src different from the current one and the forced swap in
handleIntensityChange never fires. -/
theorem audio_sources_constant_in_intensity :
    (∀ (su : Surface) (i j : WeatherType), AUDIO_SOURCES su i = AUDIO_SOURCES su j)
      ∧ (∀ (a : AudioState) (su : Surface) (i j : WeatherType),
          a.src = some (AUDIO_SOURCES su i) →
            (handleIntensityAudioSwap a su j).2 = false
              ∧ (handleIntensityAudioSwap a su j).1 = a) := by
  have hconst : ∀ (su : Surface) (i j : WeatherType), AUDIO_SOURCES su i = AUDIO_SOURCES su j := by
    intro su i j
    cases su <;> cases i <;> cases j <;> rfl
  refine ⟨hconst, ?_⟩
  intro a su i j hsrc
  have heq : a.src = some (AUDIO_SOURCES su j) := by
    rw [hsrc, hconst su i j]
  unfold handleIntensityAudioSwap
  rw [if_pos heq]
  exact ⟨rfl, rfl⟩

/-- Witness for C5: an element already on the glass track, re-selected at
heavy intensity, is not swapped. -/
theorem audio_sources_constant_in_intensity_witness :
    (handleIntensityAudioSwap
        { src := some (AUDIO_SOURCES Surface.glass WeatherType.light), volume := 10,
          paused := false, loop := true }
        Surface.glass WeatherType.heavy).2 = false
      ∧ (handleIntensityAudioSwap
          { src := some (AUDIO_SOURCES Surface.glass WeatherType.light), volume := 10,
            paused := false, loop := true }
          Surface.glass WeatherType.heavy).1
        = { src := some (AUDIO_SOURCES Surface.glass WeatherType.light), volume := 10,
            paused := false, loop := true } :=
  audio_sources_constant_in_intensity.2
    { src := some (AUDIO_SOURCES Surface.glass WeatherType.light), volume := 10,
      paused := false, loop := true }
    Surface.glass WeatherType.light WeatherType.heavy rfl

/-- Claim C9: selecting any intensity through handleIntensityChange also
unmutes the audio (setIsMuted(false)) in addition to updating the
intensity, in every state. -/
theorem intensity_selection_unmutes :
    ∀ (s : SysState) (i : WeatherType) (r : ℚ),
      (step (Event.intensityClick i) r s).page.isMuted = false
        ∧ (step (Event.intensityClick i) r s).page.weatherIntensity = i := by
  intro s i r
  constructor
  · simp [step]
  · simp [step]

/-- Claim C2: while unmuted, the consolidated audio effect swaps the
element's src (and then attempts playback) exactly when the computed
target AUDIO_SOURCES[surface][intensity] differs from the current src,
and leaves the src unchanged when they are equal; likewise the forced
swap in handleIntensityChange fires exactly when the target differs. -/
theorem audio_swap_iff_src_differs :
    ∀ (a : AudioState) (p : PageState) (i : WeatherType), p.isMuted = false →
      (((audioEffectBody a p).srcSwapped = true)
          ↔ a.src ≠ some (AUDIO_SOURCES p.surface p.weatherIntensity))
        ∧ (a.src ≠ some (AUDIO_SOURCES p.surface p.weatherIntensity) →
            (audioEffectBody a p).playAttempted = true)
        ∧ (a.src = some (AUDIO_SOURCES p.surface p.weatherIntensity) →
            (audioEffectBody a p).audio.src = a.src)
        ∧ (((handleIntensityAudioSwap a p.surface i).2 = true)
            ↔ a.src ≠ some (AUDIO_SOURCES p.surface i))
        ∧ (a.src = some (AUDIO_SOURCES p.surface i) →
            (handleIntensityAudioSwap a p.surface i).1 = a) := by
  intro a p i hmut
  refine ⟨?_, ?_, ?_, ?_, ?_⟩
  · by_cases hsrc : a.src = some (AUDIO_SOURCES p.surface p.weatherIntensity)
    · simp only [audioEffectBody]
      simp [hsrc, hmut]
      split <;> rfl
    · simp [audioEffectBody, hsrc, hmut]
  · intro hsrc
    simp [audioEffectBody, hsrc, hmut]
  · intro hsrc
    by_cases hp : a.paused
    · simp [audioEffectBody, hsrc, hmut, hp]
    · simp [audioEffectBody, hsrc, hmut, hp]
  · by_cases hsrc : a.src = some (AUDIO_SOURCES p.surface i)
    · simp [handleIntensityAudioSwap, hsrc]
    · simp [handleIntensityAudioSwap, hsrc]
  · intro hsrc
    simp [handleIntensityAudioSwap, hsrc]

/-- Witness for C2 at the freshly mounted element and default page
state. -/
theorem audio_swap_iff_src_differs_witness :
    (((audioEffectBody initAudio initPage).srcSwapped = true)
        ↔ initAudio.src ≠ some (AUDIO_SOURCES initPage.surface initPage.weatherIntensity))
      ∧ (initAudio.src ≠ some (AUDIO_SOURCES initPage.surface initPage.weatherIntensity) →
          (audioEffectBody initAudio initPage).playAttempted = true)
      ∧ (initAudio.src = some (AUDIO_SOURCES initPage.surface initPage.weatherIntensity) →
          (audioEffectBody initAudio initPage).audio.src = initAudio.src)
      ∧ (((handleIntensityAudioSwap initAudio initPage.surface WeatherType.light).2 = true)
          ↔ initAudio.src ≠ some (AUDIO_SOURCES initPage.surface WeatherType.light))
      ∧ (initAudio.src = some (AUDIO_SOURCES initPage.surface WeatherType.light) →
          (handleIntensityAudioSwap initAudio initPage.surface WeatherType.light).1
            = initAudio) :=
  audio_swap_iff_src_differs initAudio initPage WeatherType.light rfl

/-- Claim C3 counterexample: the initial render state is reachable (it is
the state of the very first render, before the mount effects run), has
windowOpen = false, yet its volume is the useState initial value 0.5
(5 tenths), not the derived 0.3 (3 tenths) — so the claimed invariant
fails as stated. -/
theorem volume_claim_false_at_initial_state :
    Reachable initState ∧ initState.page.windowOpen = false
      ∧ initState.page.volume = 5 ∧ initState.page.volume ≠ 3 :=
  ⟨Reachable.refl, rfl, rfl, by decide⟩

/-- Claim C3 amended: in every reachable state except the initial
pre-effect render, the volume equals 0.8 (8 tenths) when windowOpen and
0.3 (3 tenths) otherwise, and no other value is reachable; the initial
render transiently holds 0.5 until the mount effects run. -/
theorem volume_determined_by_window_after_effects :
    ∀ s : SysState, Reachable s →
      s = initState ∨ s.page.volume = (if s.page.windowOpen then (8 : Nat) else 3) := by
  intro s h
  rcases (reachable_props s h).2.2.2.2 with h1 | ⟨_, h2⟩
  · exact Or.inl h1
  · exact Or.inr h2

/-- Witness for the amended C3 at the state right after mount. -/
theorem volume_determined_by_window_after_effects_witness :
    step Event.mount 0 initState = initState
      ∨ (step Event.mount 0 initState).page.volume
          = (if (step Event.mount 0 initState).page.windowOpen then (8 : Nat) else 3) :=
  volume_determined_by_window_after_effects (step Event.mount 0 initState)
    (Reachable.tail initState Event.mount 0 (le_refl 0) zero_lt_one trivial Reachable.refl)

/-- Claim C1: whenever the intensity transitions from heavy to any other
value, the pending thunder timeout is cleared and isThundering is reset
to false; moreover in any reachable state away from heavy no timeout is
pending, and along any subsequent trace that never clicks heavy again,
no auto flash ever fires (firedIds stays unchanged). -/
theorem thunder_cancelled_on_leaving_heavy :
    ∀ s : SysState, Reachable s →
      (∀ (i : WeatherType) (r : ℚ),
        s.page.weatherIntensity = WeatherType.heavy → i ≠ WeatherType.heavy →
          (step (Event.intensityClick i) r s).thunderTimer = none
            ∧ (step (Event.intensityClick i) r s).page.isThundering = false)
        ∧ (s.page.weatherIntensity ≠ WeatherType.heavy → s.thunderTimer = none)
        ∧ (∀ tr : List (Event × ℚ), s.page.weatherIntensity ≠ WeatherType.heavy →
            (∀ p ∈ tr, p.1 ≠ Event.intensityClick WeatherType.heavy) →
            (runTrace tr s).firedIds = s.firedIds) := by
  intro s hre
  refine ⟨?_, ?_, ?_⟩
  · intro i r hw hi
    rcases (reachable_props s hre).2.2.2.2 with hinit | ⟨hsync, _⟩
    · rw [hinit] at hw
      exact absurd hw (by decide)
    · exact leavingHeavy_core s i r hsync.2.2 hw hi
  · exact reachable_timer_none_of_notHeavy s hre
  · intro tr hw htr
    exact trace_frozen_notHeavy tr s (reachable_timer_none_of_notHeavy s hre hw) hw htr

/-- Witness for C1: enter heavy, leave to light (timer gone, flash off);
a non-heavy state has no pending timeout; and a window toggle after
mount fires nothing. -/
theorem thunder_cancelled_on_leaving_heavy_witness :
    ((step (Event.intensityClick WeatherType.light) 0
        (step (Event.intensityClick WeatherType.heavy) 0 initState)).thunderTimer = none
      ∧ (step (Event.intensityClick WeatherType.light) 0
          (step (Event.intensityClick WeatherType.heavy) 0 initState)).page.isThundering
            = false)
    ∧ (step (Event.timeClick TimeOfDay.day) 0 initState).thunderTimer = none
    ∧ (runTrace [(Event.windowSwitch true, 0)] (step Event.mount 0 initState)).firedIds
        = (step Event.mount 0 initState).firedIds := by
  have hre1 : Reachable (step (Event.intensityClick WeatherType.heavy) 0 initState) :=
    Reachable.tail initState (Event.intensityClick WeatherType.heavy) 0 (le_refl 0)
      zero_lt_one trivial Reachable.refl
  have hre2 : Reachable (step (Event.timeClick TimeOfDay.day) 0 initState) :=
    Reachable.tail initState (Event.timeClick TimeOfDay.day) 0 (le_refl 0)
      zero_lt_one trivial Reachable.refl
  have hre3 : Reachable (step Event.mount 0 initState) :=
    Reachable.tail initState Event.mount 0 (le_refl 0) zero_lt_one trivial Reachable.refl
  exact ⟨(thunder_cancelled_on_leaving_heavy _ hre1).1 WeatherType.light 0
      (by decide) (by decide),
    (thunder_cancelled_on_leaving_heavy _ hre2).2.1 (by decide),
    (thunder_cancelled_on_leaving_heavy _ hre3).2.2 [(Event.windowSwitch true, 0)]
      (by decide) (by decide)⟩

/- DepsSynced survives the flash and flash-clear handlers, whose writes
   never touch an effect dependency. -/

theorem depsSynced_triggerThunder (s : SysState) (h : DepsSynced s) :
    DepsSynced (triggerThunder s) := by
  obtain ⟨d1, d2, d3⟩ := h
  refine ⟨?_, ?_, ?_⟩
  · rw [triggerThunder_depsAudio, d1]
    simp [audioDeps]
  · rw [triggerThunder_depsVolume, triggerThunder_windowOpen]
    exact d2
  · rw [triggerThunder_depsThunder, d3]
    simp [thunderDeps]

theorem depsSynced_runFlashClear (s : SysState) (h : DepsSynced s) :
    DepsSynced (runFlashClear s) := by
  obtain ⟨d1, d2, d3⟩ := h
  refine ⟨?_, ?_, ?_⟩
  · rw [runFlashClear_depsAudio, d1]
    simp [audioDeps]
  · rw [runFlashClear_depsVolume, runFlashClear_windowOpen]
    exact d2
  · rw [runFlashClear_depsThunder, d3]
    simp [thunderDeps]

/-- Claim C8: invoking the manual thunder trigger while
enableManualThunder is set (hence in a post-mount reachable state)
immediately switches the flash on, schedules the 1000 ms clear, leaves
the auto-loop timeout untouched regardless of its state, plays the
thunder sound at volume 1.0 if the window is open and 0.5 otherwise
(tenths: 10 / 5) when unmuted and not at all when muted, and the
scheduled clear switches the flash back off when it fires. -/
theorem manual_thunder_flash :
    ∀ (s : SysState) (r rq : ℚ), Reachable s → s.page.enableManualThunder = true →
      (step Event.manualThunderClick r s).page.isThundering = true
        ∧ (step Event.manualThunderClick r s).flashClears = 1000 :: s.flashClears
        ∧ (step Event.manualThunderClick r s).thunderTimer = s.thunderTimer
        ∧ (step Event.manualThunderClick r s).nextTimerId = s.nextTimerId
        ∧ (s.page.isMuted = false →
            (step Event.manualThunderClick r s).playedThunder
              = (if s.page.windowOpen then (10 : Nat) else 5) :: s.playedThunder)
        ∧ (s.page.isMuted = true →
            (step Event.manualThunderClick r s).playedThunder = s.playedThunder)
        ∧ (step Event.flashClearFires rq (step Event.manualThunderClick r s)).page.isThundering
            = false := by
  intro s r rq hre hen
  have hsync : DepsSynced s := by
    rcases (reachable_props s hre).2.2.2.2 with h1 | ⟨h2, _⟩
    · rw [h1] at hen
      exact absurd hen (by decide)
    · exact h2
  have hsync2 : DepsSynced (triggerThunder s) := depsSynced_triggerThunder s hsync
  have hstep : step Event.manualThunderClick r s = triggerThunder s := by
    calc step Event.manualThunderClick r s
        = runEffects r (triggerManualThunder s) := rfl
      _ = runEffects r (triggerThunder s) := by rw [triggerManualThunder_eq]
      _ = triggerThunder s := runEffects_of_synced r _ hsync2
  have hfc : runFlashClear (triggerThunder s)
      = { triggerThunder s with
          flashClears := s.flashClears
          page := { (triggerThunder s).page with isThundering := false } } :=
    runFlashClear_of_cons _ 1000 s.flashClears (triggerThunder_flashClears s)
  refine ⟨?_, ?_, ?_, ?_, ?_, ?_, ?_⟩
  · rw [hstep]
    exact triggerThunder_isThundering s
  · rw [hstep]
    exact triggerThunder_flashClears s
  · rw [hstep]
    exact triggerThunder_thunderTimer s
  · rw [hstep]
    exact triggerThunder_nextTimerId s
  · intro hm
    rw [hstep, triggerThunder_playedThunder, hm]
    rfl
  · intro hm
    rw [hstep, triggerThunder_playedThunder, hm]
    rfl
  · rw [hstep]
    calc (step Event.flashClearFires rq (triggerThunder s)).page.isThundering
        = (runEffects rq (runFlashClear (triggerThunder s))).page.isThundering := rfl
      _ = (runFlashClear (triggerThunder s)).page.isThundering := by
          rw [runEffects_of_synced rq _ (depsSynced_runFlashClear _ hsync2)]
      _ = false := by rw [hfc]

/-- Witness for C8: after switching manual thunder on from the initial
state, a manual trigger flashes, schedules the clear, plays at 0.5
volume (window closed, unmuted), and the clear resets the flash. -/
theorem manual_thunder_flash_witness :
    (step Event.manualThunderClick 0
        (step (Event.manualThunderSwitch true) 0 initState)).page.isThundering = true
      ∧ (step Event.manualThunderClick 0
          (step (Event.manualThunderSwitch true) 0 initState)).flashClears
        = 1000 :: (step (Event.manualThunderSwitch true) 0 initState).flashClears
      ∧ (step Event.manualThunderClick 0
          (step (Event.manualThunderSwitch true) 0 initState)).thunderTimer
        = (step (Event.manualThunderSwitch true) 0 initState).thunderTimer
      ∧ (step Event.manualThunderClick 0
          (step (Event.manualThunderSwitch true) 0 initState)).nextTimerId
        = (step (Event.manualThunderSwitch true) 0 initState).nextTimerId
      ∧ ((step (Event.manualThunderSwitch true) 0 initState).page.isMuted = false →
          (step Event.manualThunderClick 0
              (step (Event.manualThunderSwitch true) 0 initState)).playedThunder
            = (if (step (Event.manualThunderSwitch true) 0 initState).page.windowOpen
                then (10 : Nat) else 5)
              :: (step (Event.manualThunderSwitch true) 0 initState).playedThunder)
      ∧ ((step (Event.manualThunderSwitch true) 0 initState).page.isMuted = true →
          (step Event.manualThunderClick 0
              (step (Event.manualThunderSwitch true) 0 initState)).playedThunder
            = (step (Event.manualThunderSwitch true) 0 initState).playedThunder)
      ∧ (step Event.flashClearFires 0
          (step Event.manualThunderClick 0
            (step (Event.manualThunderSwitch true) 0 initState))).page.isThundering
        = false :=
  manual_thunder_flash (step (Event.manualThunderSwitch true) 0 initState) 0 0
    (Reachable.tail initState (Event.manualThunderSwitch true) 0 (le_refl 0)
      zero_lt_one trivial Reachable.refl)
    (by decide)

/- When the thunder deps changed and the intensity is (still) heavy, the
   effect pass cancels the old timeout and schedules a fresh one with the
   next handle and a new random delay. -/
theorem runEffects_restart_core (r : ℚ) (X : SysState)
    (hd : X.depsThunder ≠ some (thunderDeps X))
    (hw : X.page.weatherIntensity = WeatherType.heavy) :
    (runEffects r X).thunderTimer = some { id := X.nextTimerId, delay := thunderDelay r }
      ∧ (runEffects r X).nextTimerId = X.nextTimerId + 1 := by
  set y := runVolumeEffect (runAudioEffect X) with hy
  have hyd : y.depsThunder = X.depsThunder := by
    rw [hy]
    simp
  have hne : y.depsThunder ≠ some (thunderDeps y) := by
    rw [hyd]
    have hdeq : thunderDeps y = thunderDeps X := by
      rw [hy]
      simp [thunderDeps]
    rw [hdeq]
    exact hd
  have hyw2 : y.page.weatherIntensity = WeatherType.heavy := by
    rw [hy]
    simpa using hw
  obtain ⟨p1t, p1n, _⟩ := runThunderEffect_run_heavy r y hne hyw2
  have hyn : y.nextTimerId = X.nextTimerId := by
    rw [hy]
    simp
  have hpass1 : runEffectPass r X = runThunderEffect r y := by
    rw [hy]
    rfl
  rw [runEffects_def2]
  set z := runAudioEffect (runEffectPass r X) with hz
  have hzsync : z.depsThunder = some (thunderDeps z) := by
    rw [hz, runAudioEffect_depsThunder, runEffectPass_depsThunder]
    simp [thunderDeps]
  rw [runThunderEffect_of_sync r z hzsync]
  constructor
  · rw [hz, runAudioEffect_thunderTimer, hpass1, p1t, hyn]
  · rw [hz, runAudioEffect_nextTimerId, hpass1, p1n, hyn]

/-- Claim C10: toggling the Sound switch or the Open Window switch while
intensity is heavy re-runs the thunder effect (it is keyed on
weatherIntensity, isMuted and windowOpen): the pending timeout is
cancelled, a fresh timeout with a new uniformly random delay in
[5000,15000) is started, and the cancelled timeout never fires — every
auto flash recorded afterwards comes from a strictly newer handle. -/
theorem toggle_restarts_thunder_timer :
    ∀ (s : SysState) (t : TimerState) (e : Event) (c b : Bool) (r : ℚ),
      Reachable s → s.page.weatherIntensity = WeatherType.heavy →
      s.thunderTimer = some t → 0 ≤ r → r < 1 →
      ((e = Event.soundSwitch c ∧ (!c) ≠ s.page.isMuted)
        ∨ (e = Event.windowSwitch b ∧ b ≠ s.page.windowOpen)) →
      (∃ u : TimerState, (step e r s).thunderTimer = some u ∧ t.id < u.id
          ∧ u.delay = thunderDelay r ∧ 5000 ≤ u.delay ∧ u.delay < 15000)
        ∧ (step e r s).firedIds = s.firedIds
        ∧ (∀ (tr : List (Event × ℚ)) (j : Nat),
            j ∈ (runTrace tr (step e r s)).firedIds → j ∈ s.firedIds ∨ t.id < j) := by
  intro s t e c b r hre hw htm hr0 hr1 htoggle
  have hprops := reachable_props s hre
  have hid : t.id < s.nextTimerId := (hprops.1 t htm).2
  have hsync : DepsSynced s := by
    rcases hprops.2.2.2.2 with h1 | ⟨h2, _⟩
    · rw [h1] at htm
      exact Option.noConfusion htm
    · exact h2
  have key : ∀ X : SysState,
      X.depsThunder = s.depsThunder → X.nextTimerId = s.nextTimerId →
      X.firedIds = s.firedIds → X.page.weatherIntensity = s.page.weatherIntensity →
      thunderDeps X ≠ thunderDeps s →
      (runEffects r X).thunderTimer = some { id := s.nextTimerId, delay := thunderDelay r }
        ∧ (runEffects r X).nextTimerId = s.nextTimerId + 1
        ∧ (runEffects r X).firedIds = s.firedIds := by
    intro X h1 h3 h4 h5 h6
    have hd : X.depsThunder ≠ some (thunderDeps X) := by
      rw [h1, hsync.2.2]
      intro hcon
      exact h6 (Option.some.inj hcon).symm
    have hwX : X.page.weatherIntensity = WeatherType.heavy := by
      rw [h5]
      exact hw
    obtain ⟨c1, c2⟩ := runEffects_restart_core r X hd hwX
    refine ⟨by rw [c1, h3], by rw [c2, h3], by simp [h4]⟩
  have hd5 : (5000 : ℚ) ≤ thunderDelay r := by
    unfold thunderDelay
    nlinarith
  have hd15 : thunderDelay r < 15000 := by
    unfold thunderDelay
    nlinarith
  rcases htoggle with ⟨he, hc⟩ | ⟨he, hb⟩
  · subst he
    have hne : thunderDeps { s with page := { s.page with isMuted := !c } }
        ≠ thunderDeps s := by
      intro hcon
      have h2 : (!c) = s.page.isMuted := congrArg (fun q => q.2.1) hcon
      exact hc h2
    have hK := key { s with page := { s.page with isMuted := !c } } rfl rfl rfl rfl hne
    have hKt : (step (Event.soundSwitch c) r s).thunderTimer
        = some { id := s.nextTimerId, delay := thunderDelay r } := hK.1
    have hKn : (step (Event.soundSwitch c) r s).nextTimerId = s.nextTimerId + 1 := hK.2.1
    have hKf : (step (Event.soundSwitch c) r s).firedIds = s.firedIds := hK.2.2
    refine ⟨⟨{ id := s.nextTimerId, delay := thunderDelay r }, hKt, hid, rfl, hd5, hd15⟩,
      hKf, ?_⟩
    intro tr j hj
    have hguard : IdGuard t.id (step (Event.soundSwitch c) r s) := by
      constructor
      · intro u hu
        have := (hKt.symm.trans hu)
        rw [← Option.some.inj this]
        exact hid
      · rw [hKn]
        exact Nat.lt_succ_of_lt hid
    rcases trace_firedIds_mem tr _ t.id hguard j hj with hl | hr2
    · rw [hKf] at hl
      exact Or.inl hl
    · exact Or.inr hr2
  · subst he
    have hne : thunderDeps { s with page := { s.page with windowOpen := b } }
        ≠ thunderDeps s := by
      intro hcon
      have h2 : b = s.page.windowOpen := congrArg (fun q => q.2.2) hcon
      exact hb h2
    have hK := key { s with page := { s.page with windowOpen := b } } rfl rfl rfl rfl hne
    have hKt : (step (Event.windowSwitch b) r s).thunderTimer
        = some { id := s.nextTimerId, delay := thunderDelay r } := hK.1
    have hKn : (step (Event.windowSwitch b) r s).nextTimerId = s.nextTimerId + 1 := hK.2.1
    have hKf : (step (Event.windowSwitch b) r s).firedIds = s.firedIds := hK.2.2
    refine ⟨⟨{ id := s.nextTimerId, delay := thunderDelay r }, hKt, hid, rfl, hd5, hd15⟩,
      hKf, ?_⟩
    intro tr j hj
    have hguard : IdGuard t.id (step (Event.windowSwitch b) r s) := by
      constructor
      · intro u hu
        have := (hKt.symm.trans hu)
        rw [← Option.some.inj this]
        exact hid
      · rw [hKn]
        exact Nat.lt_succ_of_lt hid
    rcases trace_firedIds_mem tr _ t.id hguard j hj with hl | hr2
    · rw [hKf] at hl
      exact Or.inl hl
    · exact Or.inr hr2

/-- Witness for C10: entering heavy from the initial state schedules
handle 0; toggling the window switch replaces it by a strictly newer
handle with a fresh delay, and a subsequent firing fires the new handle,
never handle 0. -/
theorem toggle_restarts_thunder_timer_witness :
    (∃ u : TimerState,
        (step (Event.windowSwitch true) 0
            (step (Event.intensityClick WeatherType.heavy) 0 initState)).thunderTimer
          = some u
          ∧ ({ id := 0, delay := thunderDelay 0 } : TimerState).id < u.id
          ∧ u.delay = thunderDelay 0 ∧ 5000 ≤ u.delay ∧ u.delay < 15000)
      ∧ (step (Event.windowSwitch true) 0
            (step (Event.intensityClick WeatherType.heavy) 0 initState)).firedIds
          = (step (Event.intensityClick WeatherType.heavy) 0 initState).firedIds
      ∧ ((1 : Nat) ∈ (step (Event.intensityClick WeatherType.heavy) 0 initState).firedIds
          ∨ ({ id := 0, delay := thunderDelay 0 } : TimerState).id < 1) := by
  have hre : Reachable (step (Event.intensityClick WeatherType.heavy) 0 initState) :=
    Reachable.tail initState (Event.intensityClick WeatherType.heavy) 0 (le_refl 0)
      zero_lt_one trivial Reachable.refl
  have h := toggle_restarts_thunder_timer
    (step (Event.intensityClick WeatherType.heavy) 0 initState)
    { id := 0, delay := thunderDelay 0 }
    (Event.windowSwitch true) false true 0 hre (by decide) rfl (le_refl 0) zero_lt_one
    (Or.inr ⟨rfl, by decide⟩)
  exact ⟨h.1, h.2.1, h.2.2 [(Event.thunderFires, 0)] 1 (by decide)⟩
